import Mathlib

/-!
Verification development for the sunxi CAN bus controller driver
(src/sunxi_can.c).  The driver's hardware-facing control logic is shallowly
embedded: machine integers are `Nat` with explicit truncation (`% 2^32`,
`% 256`) where the C types force it, hardware register reads are an oracle
indexed by a per-register read counter (reads of a device register are
genuinely nondeterministic), register writes and delivered socket buffers
are accumulated in logs, and buffer allocation success is an oracle indexed
by an allocation counter.

The register bit-mask macros of the driver's header `sunxi_can.h` are not
part of the sources; they are kept as parameters in a `Consts` structure
(see its doc comment).  Constants taken from the Linux UAPI headers
(`linux/can.h`, `linux/can/error.h`) are fixed and spelled out below.
-/

/-- Pointwise update of a store modelled as a function. -/
def upd (f : Nat → Nat) (i v : Nat) : Nat → Nat :=
  fun j => if j = i then v else f j

/-- Truncation to 32 bits, the semantics of storing into a `u32`. -/
def w32 (x : Nat) : Nat := x % 2 ^ 32

/-- Wrapping 32-bit subtraction, the semantics of `a - b` on `u32`. -/
def sub32 (a b : Nat) : Nat := (a % 2 ^ 32 + (2 ^ 32 - b % 2 ^ 32)) % 2 ^ 32

/-- Wrapping 32-bit addition, the semantics of `a + b` on `u32`. -/
def add32 (a b : Nat) : Nat := (a + b) % 2 ^ 32

/-- Bitwise complement on 32 bits, the semantics of `~x` (used as `0xFFFF & ~x`
and `readl(...) & ~RESET_MODE` in the source). -/
def compl32 (x : Nat) : Nat := 0xFFFFFFFF - x % 2 ^ 32

/-- Linux UAPI (linux/can.h): extended frame format flag, bit 31 of `can_id`. -/
def CAN_EFF_FLAG : Nat := 0x80000000

/-- Linux UAPI (linux/can.h): remote transmission request flag, bit 30 of `can_id`. -/
def CAN_RTR_FLAG : Nat := 0x40000000

/-- Linux UAPI (linux/can/error.h): error frame flag, bit 29 of `can_id`. -/
def CAN_ERR_FLAG : Nat := 0x20000000

/-- Linux UAPI (linux/can/error.h): DLC of an error frame. -/
def CAN_ERR_DLC : Nat := 8

/-- Linux UAPI (linux/can/error.h): lost arbitration class bit. -/
def CAN_ERR_LOSTARB : Nat := 0x02

/-- Linux UAPI (linux/can/error.h): controller problems class bit. -/
def CAN_ERR_CRTL : Nat := 0x04

/-- Linux UAPI (linux/can/error.h): protocol violation class bit. -/
def CAN_ERR_PROT : Nat := 0x08

/-- Linux UAPI (linux/can/error.h): bus off class bit. -/
def CAN_ERR_BUSOFF : Nat := 0x40

/-- Linux UAPI (linux/can/error.h): bus error class bit. -/
def CAN_ERR_BUSERROR : Nat := 0x80

/-- Linux UAPI (linux/can/error.h): `data[1]` subtype, RX buffer overflow. -/
def CAN_ERR_CRTL_RX_OVERFLOW : Nat := 0x01

/-- Linux UAPI (linux/can/error.h): `data[1]` subtype, reached RX warning level. -/
def CAN_ERR_CRTL_RX_WARNING : Nat := 0x04

/-- Linux UAPI (linux/can/error.h): `data[1]` subtype, reached TX warning level. -/
def CAN_ERR_CRTL_TX_WARNING : Nat := 0x08

/-- Linux UAPI (linux/can/error.h): `data[1]` subtype, reached RX passive level. -/
def CAN_ERR_CRTL_RX_PASSIVE : Nat := 0x10

/-- Linux UAPI (linux/can/error.h): `data[1]` subtype, reached TX passive level. -/
def CAN_ERR_CRTL_TX_PASSIVE : Nat := 0x20

/-- Linux UAPI (linux/can/error.h): `data[2]` subtype, unspecified protocol error. -/
def CAN_ERR_PROT_UNSPEC : Nat := 0x00

/-- Linux UAPI (linux/can/error.h): `data[2]` subtype, single bit error. -/
def CAN_ERR_PROT_BIT : Nat := 0x01

/-- Linux UAPI (linux/can/error.h): `data[2]` subtype, frame format error. -/
def CAN_ERR_PROT_FORM : Nat := 0x02

/-- Linux UAPI (linux/can/error.h): `data[2]` subtype, bit stuffing error. -/
def CAN_ERR_PROT_STUFF : Nat := 0x04

/-- Linux UAPI (linux/can/error.h): `data[2]` flag, error occurred on transmission. -/
def CAN_ERR_PROT_TX : Nat := 0x80

/-- Linux UAPI (linux/can/netlink.h): loopback control mode flag. -/
def CAN_CTRLMODE_LOOPBACK : Nat := 0x01

/-- Linux UAPI (linux/can/netlink.h): listen-only control mode flag. -/
def CAN_CTRLMODE_LISTENONLY : Nat := 0x02

/-- Linux UAPI (linux/can/netlink.h): triple sampling control mode flag. -/
def CAN_CTRLMODE_3_SAMPLES : Nat := 0x04

/-- Linux UAPI (linux/can/netlink.h): bus error reporting control mode flag. -/
def CAN_CTRLMODE_BERR_REPORTING : Nat := 0x10

/-- Logical CAN frame exactly as `struct can_frame`: `can_id` is a `u32`
carrying the EFF/RTR/ERR flag bits, `can_dlc` a `u8`, and `data` the eight
payload bytes (modelled as a total function; indices outside 0..7 unused). -/
structure can_frame where
  can_id : Nat
  can_dlc : Nat
  data : Nat → Nat

/-- Linux `get_can_dlc(i)`: clamp a received data length code to at most 8. -/
def get_can_dlc (i : Nat) : Nat := min i 8

/-- The data-byte store updates performed by `for (i = 0; i < n; i++)
writel(f(i), BUF(base + i))` in the transmit path. -/
def writeBytes (b : Nat → Nat) (base : Nat) (f : Nat → Nat) : Nat → (Nat → Nat)
  | 0 => b
  | n + 1 => upd (writeBytes b base f n) (base + n) (f n)

/-- Embedding of the buffer-register writes of `sunxi_can_start_xmit`
(src/sunxi_can.c lines 280-301): the transmit encode path.  The store maps
buffer-register index (0 for `CAN_BUF0_ADDR`, … 12 for `CAN_BUF12_ADDR`) to
the 32-bit value last written there. -/
def sunxi_can_start_xmit_bufs (cf : can_frame) (bufs : Nat → Nat) : Nat → Nat :=
  let dlc := cf.can_dlc
  let id := cf.can_id
  let temp := ((id >>> 30) <<< 6) ||| dlc
  let b0 := upd bufs 0 temp
  if id &&& CAN_EFF_FLAG ≠ 0 then
    let b1 := upd b0 1 (0xFF &&& (id >>> 21))
    let b2 := upd b1 2 (0xFF &&& (id >>> 13))
    let b3 := upd b2 3 (0xFF &&& (id >>> 5))
    let b4 := upd b3 4 ((id &&& 0x1F) <<< 3)
    writeBytes b4 5 cf.data dlc
  else
    let b1 := upd b0 1 (0xFF &&& (id >>> 3))
    let b2 := upd b1 2 ((id &&& 0x7) <<< 5)
    writeBytes b2 3 cf.data dlc

/-- Embedding of the receive decode of `sunxi_can_rx`
(src/sunxi_can.c lines 326-355) as a pure function of the buffer registers:
`fi` is read into a `uint8_t` (hence `% 256`), the identifier chunks are
recombined with 32-bit wrap on the shifts, an RTR header bit suppresses the
data reads, and data bytes land in `u8` fields (hence `% 256`); bytes past
the DLC stay zero from the zeroed allocation. -/
def sunxi_can_rx_decode (bufs : Nat → Nat) : can_frame :=
  let fi := bufs 0 % 256
  let dlc := get_can_dlc (fi &&& 0x0F)
  if fi >>> 7 ≠ 0 then
    let id0 := w32 (bufs 1 <<< 21) ||| w32 (bufs 2 <<< 13) ||| w32 (bufs 3 <<< 5) |||
      ((bufs 4 >>> 3) &&& 0x1F)
    let id1 := id0 ||| CAN_EFF_FLAG
    if (fi >>> 6) &&& 0x1 ≠ 0 then
      { can_id := id1 ||| CAN_RTR_FLAG, can_dlc := dlc, data := fun _ => 0 }
    else
      { can_id := id1, can_dlc := dlc, data := fun i => if i < dlc then bufs (5 + i) % 256 else 0 }
  else
    let id0 := w32 (bufs 1 <<< 3) ||| ((bufs 2 >>> 5) &&& 0x7)
    if (fi >>> 6) &&& 0x1 ≠ 0 then
      { can_id := id0 ||| CAN_RTR_FLAG, can_dlc := dlc, data := fun _ => 0 }
    else
      { can_id := id0, can_dlc := dlc, data := fun i => if i < dlc then bufs (3 + i) % 256 else 0 }

/-- Embedding of the timing-register value computed by
`sunxi_can_set_bittiming` (src/sunxi_can.c lines 190-195).  The
`can_bittiming` fields are `u32`, so the `- 1` and `+` wrap mod `2^32`. -/
def sunxi_can_set_bittiming_cfg (brp sjw prop_seg phase_seg1 phase_seg2 : Nat)
    (triple_sampling : Bool) : Nat :=
  let cfg := (sub32 brp 1 &&& 0x3FF)
    ||| ((sub32 sjw 1 &&& 0x3) <<< 14)
    ||| ((sub32 (add32 prop_seg phase_seg1) 1 &&& 0xF) <<< 16)
    ||| ((sub32 phase_seg2 1 &&& 0x7) <<< 20)
  if triple_sampling then cfg ||| 0x800000 else cfg

/-- The hardware registers of the controller named in the source. -/
inductive Reg where
  | MSEL
  | STA
  | INT
  | INTEN
  | BTIME
  | ERRC
  | ACPM
  | CMD
  | RBACK
  | BUF : Nat → Reg
deriving DecidableEq

/-- Hardware environment: `rd r k` is the value returned by the `k`-th read
of register `r`; `allocOk k` tells whether the `k`-th socket-buffer
allocation of the run succeeds. -/
structure Oracle where
  rd : Reg → Nat → Nat
  allocOk : Nat → Bool

/-- The `enum can_state` values the driver assigns to `priv->can.state`. -/
inductive CanState where
  | STOPPED
  | ERROR_ACTIVE
  | ERROR_WARNING
  | ERROR_PASSIVE
  | BUS_OFF
deriving DecidableEq

/-- Device statistics touched by the driver: `net_device_stats` fields plus
the `can_priv.can_stats` fields, plus counters for the external collaborator
calls `can_bus_off`, `can_get_echo_skb` and `netif_wake_queue`. -/
structure Stats where
  rx_packets : Nat := 0
  rx_bytes : Nat := 0
  tx_packets : Nat := 0
  tx_bytes : Nat := 0
  rx_errors : Nat := 0
  tx_errors : Nat := 0
  rx_over_errors : Nat := 0
  bus_error : Nat := 0
  arbitration_lost : Nat := 0
  error_warning : Nat := 0
  error_passive : Nat := 0
  bus_off_calls : Nat := 0
  echo_gets : Nat := 0
  wake_queue_calls : Nat := 0
deriving DecidableEq

/-- Mutable device state threaded through the embedded driver code:
per-register read counters into the oracle, the allocation counter, the log
of register writes, the statistics, the stored controller state
`priv->can.state`, the configured `priv->can.ctrlmode`, the frames delivered
upward via `netif_rx`, and a count of `udelay(10)` calls. -/
structure DevSt where
  cnt : Reg → Nat
  allocCnt : Nat
  writes : List (Reg × Nat)
  stats : Stats
  canState : CanState
  ctrlmode : Nat
  delivered : List can_frame
  delays : Nat

/-- Value produced by a `readl` of register `r` in state `s`. -/
def rdVal (o : Oracle) (r : Reg) (s : DevSt) : Nat := o.rd r (s.cnt r)

/-- State after a `readl` of register `r`: that register's read counter advances. -/
def rdSt (r : Reg) (s : DevSt) : DevSt :=
  { s with cnt := fun q => if q = r then s.cnt r + 1 else s.cnt q }

/-- A `writel(v, r)`: appended to the write log (hardware registers, so a
write does not feed back into the read oracle). -/
def wrReg (r : Reg) (v : Nat) (s : DevSt) : DevSt :=
  { s with writes := s.writes ++ [(r, v)] }

/-- Embedding of `sunxi_can_write_cmdreg` (lines 58-69): a serialized write
of the command register. -/
def sunxi_can_write_cmdreg (v : Nat) (s : DevSt) : DevSt := wrReg Reg.CMD v s

/-- Embedding of `sunxi_can_is_absent` (lines 71-74): the hardware-absent
test `(readl(CAN_MSEL_ADDR) & 0xFF) == 0xFF`.  The accompanying read-counter
advance is `rdSt Reg.MSEL`. -/
def sunxi_can_is_absent (o : Oracle) (s : DevSt) : Bool :=
  rdVal o Reg.MSEL s &&& 0xFF == 0xFF

/-- Modelled from the spec: the register bit-mask and command-code macros of
the driver's missing header `sunxi_can.h` (mode-select bits, status bits,
interrupt-source bits, error-code-capture fields, command codes).  The spec
names these conditions but fixes no numeric values, so they are parameters;
no theorem below depends on particular values. -/
structure Consts where
  RESET_MODE : Nat
  LOOPBACK_MODE : Nat
  LISTEN_ONLY_MODE : Nat
  BERR_IRQ_EN : Nat
  TBUF_RDY : Nat
  RBUF_RDY : Nat
  BUS_OFF : Nat
  ERR_STA : Nat
  WAKEUP : Nat
  TBUF_VLD : Nat
  RBUF_VLD : Nat
  DATA_ORUNI : Nat
  ERR_WRN : Nat
  BUS_ERR : Nat
  ERR_PASSIVE : Nat
  ARB_LOST : Nat
  BIT_ERR : Nat
  FORM_ERR : Nat
  STUFF_ERR : Nat
  ERR_SEG_CODE : Nat
  ERR_DIR : Nat
  TRANS_REQ : Nat
  RELEASE_RBUF : Nat
  CLEAR_DOVERRUN : Nat

/-- Modelled from the spec: `SUNXI_CAN_MAX_IRQ`, the dispatch-loop bound of
the missing header; spec section 4.5 gives the value 20. -/
def SUNXI_CAN_MAX_IRQ : Nat := 20

/-- One failed iteration of the `set_reset_mode` poll loop (lines 101-103):
read-modify-write of `CAN_MSEL_ADDR` setting the reset bit, then
`udelay(10)` (counted in `delays`). -/
def srm_step (c : Consts) (o : Oracle) (s : DevSt) : DevSt :=
  let v := rdVal o Reg.MSEL s
  let s1 := rdSt Reg.MSEL s
  let s2 := wrReg Reg.MSEL (v ||| c.RESET_MODE) s1
  { s2 with delays := s2.delays + 1 }

/-- The `for (i = 0; i < 100; i++)` poll loop of `set_reset_mode`
(lines 94-105), recursing on the remaining iteration count.  Each failed
check performs `srm_step` and re-reads the status.  Exhausting the bound
only logs `netdev_err`. -/
def set_reset_mode_loop (c : Consts) (o : Oracle) : Nat → Nat → DevSt → DevSt
  | 0, _, s => s
  | fuel + 1, status, s =>
    if status &&& c.RESET_MODE ≠ 0 then
      { s with canState := CanState.STOPPED }
    else
      set_reset_mode_loop c o fuel (rdVal o Reg.MSEL (srm_step c o s))
        (rdSt Reg.MSEL (srm_step c o s))

/-- Embedding of `set_reset_mode` (lines 88-108): `status` is a `uint32_t`
here (no truncation). -/
def set_reset_mode (c : Consts) (o : Oracle) (s : DevSt) : DevSt :=
  let st0 := rdVal o Reg.MSEL s
  let s1 := rdSt Reg.MSEL s
  set_reset_mode_loop c o 100 st0 s1

/-- One failed iteration of the `set_normal_mode` poll loop (lines 139-141):
read-modify-write of `CAN_MSEL_ADDR` clearing the reset bit, then
`udelay(10)` (counted in `delays`). -/
def snm_step (c : Consts) (o : Oracle) (s : DevSt) : DevSt :=
  let v := rdVal o Reg.MSEL s
  let s1 := rdSt Reg.MSEL s
  let s2 := wrReg Reg.MSEL (v &&& compl32 c.RESET_MODE) s1
  { s2 with delays := s2.delays + 1 }

/-- The poll loop of `set_normal_mode` (lines 116-142).  On observing the
reset bit clear it sets `ERROR_ACTIVE`, programs the interrupt-enable
register according to the BERR-reporting flag, and sets the
loopback/listen-only mode bit per configuration; otherwise it clears the
reset bit, delays and re-reads.  `status` is an `unsigned char`, so every
assignment to it truncates to 8 bits. -/
def set_normal_mode_loop (c : Consts) (o : Oracle) : Nat → Nat → DevSt → DevSt
  | 0, _, s => s
  | fuel + 1, status, s =>
    if status &&& c.RESET_MODE = 0 then
      let s1 := { s with canState := CanState.ERROR_ACTIVE }
      let s2 :=
        if s1.ctrlmode &&& CAN_CTRLMODE_BERR_REPORTING ≠ 0 then
          wrReg Reg.INTEN 0xFFFF s1
        else
          wrReg Reg.INTEN (0xFFFF &&& compl32 c.BERR_IRQ_EN) s1
      if s2.ctrlmode &&& CAN_CTRLMODE_LOOPBACK ≠ 0 then
        let v := rdVal o Reg.MSEL s2
        let s3 := rdSt Reg.MSEL s2
        wrReg Reg.MSEL (v ||| c.LOOPBACK_MODE) s3
      else if s2.ctrlmode &&& CAN_CTRLMODE_LISTENONLY ≠ 0 then
        let v := rdVal o Reg.MSEL s2
        let s3 := rdSt Reg.MSEL s2
        wrReg Reg.MSEL (v ||| c.LISTEN_ONLY_MODE) s3
      else s2
    else
      set_normal_mode_loop c o fuel (rdVal o Reg.MSEL (snm_step c o s) % 256)
        (rdSt Reg.MSEL (snm_step c o s))

/-- Embedding of `set_normal_mode` (lines 110-145). -/
def set_normal_mode (c : Consts) (o : Oracle) (s : DevSt) : DevSt :=
  let st0 := rdVal o Reg.MSEL s
  let s1 := rdSt Reg.MSEL s
  set_normal_mode_loop c o 100 (st0 % 256) s1

/-- Embedding of `sunxi_can_get_berr_counter` (lines 206-213): two reads of
the error-counter register; the first feeds `txerr = v & 0x000F`, the second
`rxerr = (v & 0x0F00) >> 16`.  Returns `((txerr, rxerr), finalState)`. -/
def sunxi_can_get_berr_counter (o : Oracle) (s : DevSt) : (Nat × Nat) × DevSt :=
  let e1 := rdVal o Reg.ERRC s
  let s1 := rdSt Reg.ERRC s
  let e2 := rdVal o Reg.ERRC s1
  let s2 := rdSt Reg.ERRC s1
  ((e1 &&& 0x000F, (e2 &&& 0x0F00) >>> 16), s2)

/-- Local context of one `sunxi_can_err` invocation: the device state, the
diagnostic frame being filled in, and the local variable `state`. -/
structure ErrCtx where
  dev : DevSt
  cf : can_frame
  state : CanState

/-- Store a byte into `cf->data[i]`. -/
def fsetData (f : can_frame) (i v : Nat) : can_frame :=
  { f with data := fun j => if j = i then v else f.data j }

/-- Overwrite `cf->can_id`. -/
def fsetId (f : can_frame) (v : Nat) : can_frame := { f with can_id := v }

/-- The zeroed error frame produced by `alloc_can_err_skb`: Linux presets
`can_id = CAN_ERR_FLAG` and `can_dlc = CAN_ERR_DLC`. -/
def mk_err_frame : can_frame :=
  { can_id := CAN_ERR_FLAG, can_dlc := CAN_ERR_DLC, data := fun _ => 0 }

/-- Data-overrun block of `sunxi_can_err` (lines 379-387). -/
def err_overrun (c : Consts) (isrc : Nat) (x : ErrCtx) : ErrCtx :=
  if isrc &&& c.DATA_ORUNI ≠ 0 then
    let f1 := fsetId x.cf (x.cf.can_id ||| CAN_ERR_CRTL)
    let f2 := fsetData f1 1 CAN_ERR_CRTL_RX_OVERFLOW
    let d1 := { x.dev with stats := { x.dev.stats with
      rx_over_errors := x.dev.stats.rx_over_errors + 1,
      rx_errors := x.dev.stats.rx_errors + 1 } }
    let d2 := sunxi_can_write_cmdreg c.CLEAR_DOVERRUN d1
    { dev := d2, cf := f2, state := x.state }
  else x

/-- Error-warning block of `sunxi_can_err` (lines 389-401): on bus-off
status it moves `state` to `BUS_OFF`, marks the frame, and calls
`can_bus_off` (counted in `bus_off_calls`) unconditionally. -/
def err_warning (c : Consts) (isrc status : Nat) (x : ErrCtx) : ErrCtx :=
  if isrc &&& c.ERR_WRN ≠ 0 then
    if status &&& c.BUS_OFF ≠ 0 then
      { dev := { x.dev with stats := { x.dev.stats with
          bus_off_calls := x.dev.stats.bus_off_calls + 1 } },
        cf := fsetId x.cf (x.cf.can_id ||| CAN_ERR_BUSOFF),
        state := CanState.BUS_OFF }
    else if status &&& c.ERR_STA ≠ 0 then
      { x with state := CanState.ERROR_WARNING }
    else
      { x with state := CanState.ERROR_ACTIVE }
  else x

/-- Bus-error block of `sunxi_can_err` (lines 402-424): captures `ecc` from
the status register, classifies `data[2]` in priority order bit, form,
stuff, unspecified (with the segment code in `data[3]`, a `u8` store), and
adds the TX-direction flag when the direction bit is clear. -/
def err_buserr (c : Consts) (o : Oracle) (isrc : Nat) (x : ErrCtx) : ErrCtx :=
  if isrc &&& c.BUS_ERR ≠ 0 then
    let d1 := { x.dev with stats := { x.dev.stats with
      bus_error := x.dev.stats.bus_error + 1,
      rx_errors := x.dev.stats.rx_errors + 1 } }
    let ecc := rdVal o Reg.STA d1
    let d2 := rdSt Reg.STA d1
    let f1 := fsetId x.cf (x.cf.can_id ||| (CAN_ERR_PROT ||| CAN_ERR_BUSERROR))
    let f2 :=
      if ecc &&& c.BIT_ERR ≠ 0 then
        fsetData f1 2 (f1.data 2 ||| CAN_ERR_PROT_BIT)
      else if ecc &&& c.FORM_ERR ≠ 0 then
        fsetData f1 2 (f1.data 2 ||| CAN_ERR_PROT_FORM)
      else if ecc &&& c.STUFF_ERR ≠ 0 then
        fsetData f1 2 (f1.data 2 ||| CAN_ERR_PROT_STUFF)
      else
        fsetData (fsetData f1 2 (f1.data 2 ||| CAN_ERR_PROT_UNSPEC)) 3
          (((ecc &&& c.ERR_SEG_CODE) >>> 16) % 256)
    let f3 :=
      if ecc &&& c.ERR_DIR = 0 then fsetData f2 2 (f2.data 2 ||| CAN_ERR_PROT_TX) else f2
    { dev := d2, cf := f3, state := x.state }
  else x

/-- Error-passive block of `sunxi_can_err` (lines 425-432). -/
def err_passive_branch (c : Consts) (isrc status : Nat) (x : ErrCtx) : ErrCtx :=
  if isrc &&& c.ERR_PASSIVE ≠ 0 then
    if status &&& c.ERR_STA ≠ 0 then
      { x with state := CanState.ERROR_PASSIVE }
    else
      { x with state := CanState.ERROR_ACTIVE }
  else x

/-- Arbitration-lost block of `sunxi_can_err` (lines 433-441): captures
`alc` from the status register and stores `(alc & 0x1f) >> 8` in `data[0]`. -/
def err_arblost (c : Consts) (o : Oracle) (isrc : Nat) (x : ErrCtx) : ErrCtx :=
  if isrc &&& c.ARB_LOST ≠ 0 then
    let alc := rdVal o Reg.STA x.dev
    let d1 := rdSt Reg.STA x.dev
    let d2 := { d1 with stats := { d1.stats with
      arbitration_lost := d1.stats.arbitration_lost + 1,
      tx_errors := d1.stats.tx_errors + 1 } }
    let f1 := fsetId x.cf (x.cf.can_id ||| CAN_ERR_LOSTARB)
    let f2 := fsetData f1 0 ((alc &&& 0x1F) >>> 8)
    { dev := d2, cf := f2, state := x.state }
  else x

/-- State-change block of `sunxi_can_err` (lines 443-461): if the new state
differs from `priv->can.state` and is warning or passive, re-read the error
counters (`rxerr` from the first read's bits 16..23, `txerr` from the second
read's bits 0..7), pick the TX subtype exactly when `txerr > rxerr`, bump
the matching statistic, and record both counts in `data[6]`/`data[7]`. -/
def err_statechange (o : Oracle) (x : ErrCtx) : ErrCtx :=
  if x.state ≠ x.dev.canState ∧
      (x.state = CanState.ERROR_WARNING ∨ x.state = CanState.ERROR_PASSIVE) then
    let e1 := rdVal o Reg.ERRC x.dev
    let d1 := rdSt Reg.ERRC x.dev
    let rxerr := (e1 >>> 16) &&& 0xFF
    let e2 := rdVal o Reg.ERRC d1
    let d2 := rdSt Reg.ERRC d1
    let txerr := e2 &&& 0xFF
    let f1 := fsetId x.cf (x.cf.can_id ||| CAN_ERR_CRTL)
    let d3 :=
      if x.state = CanState.ERROR_WARNING then
        { d2 with stats := { d2.stats with error_warning := d2.stats.error_warning + 1 } }
      else
        { d2 with stats := { d2.stats with error_passive := d2.stats.error_passive + 1 } }
    let f2 :=
      if x.state = CanState.ERROR_WARNING then
        fsetData f1 1 (if txerr > rxerr then CAN_ERR_CRTL_TX_WARNING else CAN_ERR_CRTL_RX_WARNING)
      else
        fsetData f1 1 (if txerr > rxerr then CAN_ERR_CRTL_TX_PASSIVE else CAN_ERR_CRTL_RX_PASSIVE)
    let f3 := fsetData (fsetData f2 6 txerr) 7 rxerr
    { dev := d3, cf := f3, state := x.state }
  else x

/-- The five condition blocks of `sunxi_can_err` in source order
(lines 379-441). -/
def err_branches (c : Consts) (o : Oracle) (isrc status : Nat) (x0 : ErrCtx) : ErrCtx :=
  err_arblost c o isrc (err_passive_branch c isrc status
    (err_buserr c o isrc (err_warning c isrc status (err_overrun c isrc x0))))

/-- The tail of `sunxi_can_err` (lines 463-468): commit `priv->can.state`,
deliver the diagnostic frame via `netif_rx`, bump `rx_packets`/`rx_bytes`. -/
def err_commit (x : ErrCtx) : DevSt :=
  { x.dev with canState := x.state,
               delivered := x.dev.delivered ++ [x.cf],
               stats := { x.dev.stats with
                 rx_packets := x.dev.stats.rx_packets + 1,
                 rx_bytes := x.dev.stats.rx_bytes + x.cf.can_dlc } }

/-- Embedding of `sunxi_can_err` (lines 366-471).  Returns `false` paired
with the (allocation-counter-advanced) state when `alloc_can_err_skb` fails
(the C function returns `-ENOMEM` with no other effect); otherwise runs the
five condition blocks and the state-change block in source order and commits. -/
def sunxi_can_err (c : Consts) (o : Oracle) (isrc status : Nat) (s : DevSt) : Bool × DevSt :=
  if o.allocOk s.allocCnt then
    (true, err_commit (err_statechange o (err_branches c o isrc status
      { dev := { s with allocCnt := s.allocCnt + 1 }, cf := mk_err_frame,
        state := s.canState })))
  else
    (false, { s with allocCnt := s.allocCnt + 1 })

/-- Read-counter advances of the data-byte loop of `sunxi_can_rx`: reads of
`BUF(base)`, …, `BUF(base+n-1)` in order. -/
def rdBytesSt (base : Nat) : Nat → DevSt → DevSt
  | 0, s => s
  | n + 1, s => rdSt (Reg.BUF (base + n)) (rdBytesSt base n s)

/-- Values collected by the data-byte loop of `sunxi_can_rx`: byte `j` is
the `readl(BUF(base+j))` result truncated into the `u8` field. -/
def rdBytesVal (o : Oracle) (base : Nat) : Nat → DevSt → (Nat → Nat)
  | 0, _ => fun _ => 0
  | n + 1, s => fun j =>
    if j = n then rdVal o (Reg.BUF (base + n)) (rdBytesSt base n s) % 256
    else rdBytesVal o base n s j

/-- Embedding of `sunxi_can_rx` (lines 311-364).  If `alloc_can_skb` fails
the function returns at once (only the allocation counter advances — no
release command, no statistics, no delivery).  Otherwise it decodes the
buffer registers exactly as `sunxi_can_rx_decode` but through the oracle,
issues the `RELEASE_RBUF` command, delivers the frame and bumps
`rx_packets`/`rx_bytes`. -/
def sunxi_can_rx (c : Consts) (o : Oracle) (s : DevSt) : DevSt :=
  if o.allocOk s.allocCnt then
    let s1 := { s with allocCnt := s.allocCnt + 1 }
    let fi := rdVal o (Reg.BUF 0) s1 % 256
    let s2 := rdSt (Reg.BUF 0) s1
    let dlc := get_can_dlc (fi &&& 0x0F)
    let cs :=
      if fi >>> 7 ≠ 0 then
        let b1 := rdVal o (Reg.BUF 1) s2
        let s3 := rdSt (Reg.BUF 1) s2
        let b2 := rdVal o (Reg.BUF 2) s3
        let s4 := rdSt (Reg.BUF 2) s3
        let b3 := rdVal o (Reg.BUF 3) s4
        let s5 := rdSt (Reg.BUF 3) s4
        let b4 := rdVal o (Reg.BUF 4) s5
        let s6 := rdSt (Reg.BUF 4) s5
        let id0 := w32 (b1 <<< 21) ||| w32 (b2 <<< 13) ||| w32 (b3 <<< 5) ||| ((b4 >>> 3) &&& 0x1F)
        let id1 := id0 ||| CAN_EFF_FLAG
        if (fi >>> 6) &&& 0x1 ≠ 0 then
          ({ can_id := id1 ||| CAN_RTR_FLAG, can_dlc := dlc, data := fun _ => 0 }, s6)
        else
          let g := rdBytesVal o 5 dlc s6
          ({ can_id := id1, can_dlc := dlc, data := fun i => if i < dlc then g i else 0 },
           rdBytesSt 5 dlc s6)
      else
        let b1 := rdVal o (Reg.BUF 1) s2
        let s3 := rdSt (Reg.BUF 1) s2
        let b2 := rdVal o (Reg.BUF 2) s3
        let s4 := rdSt (Reg.BUF 2) s3
        let id0 := w32 (b1 <<< 3) ||| ((b2 >>> 5) &&& 0x7)
        if (fi >>> 6) &&& 0x1 ≠ 0 then
          ({ can_id := id0 ||| CAN_RTR_FLAG, can_dlc := dlc, data := fun _ => 0 }, s4)
        else
          let g := rdBytesVal o 3 dlc s4
          ({ can_id := id0, can_dlc := dlc, data := fun i => if i < dlc then g i else 0 },
           rdBytesSt 3 dlc s4)
    let sA := sunxi_can_write_cmdreg c.RELEASE_RBUF cs.2
    { sA with delivered := sA.delivered ++ [cs.1],
              stats := { sA.stats with
                rx_packets := sA.stats.rx_packets + 1,
                rx_bytes := sA.stats.rx_bytes + cs.1.can_dlc } }
  else
    { s with allocCnt := s.allocCnt + 1 }

/-- Outcome of the inner receive-drain loop of the interrupt handler:
either the loop finished with a final `status` value, or the hardware-absent
check fired inside it (the whole handler then returns `IRQ_NONE`), or the
model's fuel ran out while the status still reported data pending (the C
loop would still be spinning). -/
inductive DrainRes where
  | done : Nat → DevSt → DrainRes
  | absent : DevSt → DrainRes
  | diverge : DrainRes

/-- The `while (status & RBUF_RDY)` drain loop of `sunxi_can_interrupt`
(lines 502-508), with fuel: each pass runs `sunxi_can_rx`, re-reads the
status into the `uint8_t` variable, and re-checks hardware absence. -/
def sunxi_can_rx_drain (c : Consts) (o : Oracle) : Nat → Nat → DevSt → DrainRes
  | 0, status, s =>
    if status &&& c.RBUF_RDY ≠ 0 then DrainRes.diverge else DrainRes.done status s
  | fuel + 1, status, s =>
    if status &&& c.RBUF_RDY ≠ 0 then
      let s1 := sunxi_can_rx c o s
      let st := rdVal o Reg.STA s1
      let s2 := rdSt Reg.STA s1
      let ab := sunxi_can_is_absent o s2
      let s3 := rdSt Reg.MSEL s2
      if ab then DrainRes.absent s3
      else sunxi_can_rx_drain c o fuel (st % 256) s3
    else DrainRes.done status s

/-- `irqreturn_t`: `IRQ_HANDLED` (serviced) or `IRQ_NONE` (not serviced). -/
inductive IrqRet where
  | Handled
  | NotServiced
deriving DecidableEq

/-- Case analysis on the inner-drain outcome (a plain eliminator, used so
the loop's proofs can step through it with rewriting). -/
def drain_dispatch {A : Type} (dv : A) (ab : DevSt → A) (dn : Nat → DevSt → A) :
    DrainRes → A
  | DrainRes.diverge => dv
  | DrainRes.absent s => ab s
  | DrainRes.done st s => dn st s

/-- The `while ((isrc = readl(CAN_INT_ADDR)) && (n < SUNXI_CAN_MAX_IRQ))`
dispatch loop of `sunxi_can_interrupt` (lines 481-520), recursing on a model
fuel kept strictly above `SUNXI_CAN_MAX_IRQ - n` by the top-level entry (the
C loop is bounded by the `n < SUNXI_CAN_MAX_IRQ` test itself).  `isrc` and
`status` are `uint8_t` variables, so reads into them truncate.  The result
carries the return value, the final `n`, and the final state; `none` models
the inner drain loop never terminating. -/
def sunxi_can_interrupt_loop (c : Consts) (o : Oracle) (rxFuel : Nat) :
    Nat → Nat → DevSt → Option (IrqRet × Nat × DevSt)
  | 0, _, _ => none
  | fuel + 1, n, s =>
    let isrc := rdVal o Reg.INT s % 256
    let s1 := rdSt Reg.INT s
    if isrc ≠ 0 ∧ n < SUNXI_CAN_MAX_IRQ then
      let n1 := n + 1
      let status := rdVal o Reg.STA s1 % 256
      let s2 := rdSt Reg.STA s1
      let ab := sunxi_can_is_absent o s2
      let s3 := rdSt Reg.MSEL s2
      if ab then some (IrqRet.NotServiced, n1, s3)
      else
        let s4 :=
          if isrc &&& c.TBUF_VLD ≠ 0 then
            let rb := rdVal o Reg.RBACK s3
            let sa := rdSt Reg.RBACK s3
            { sa with stats := { sa.stats with
              tx_bytes := sa.stats.tx_bytes + (rb &&& 0xF),
              tx_packets := sa.stats.tx_packets + 1,
              echo_gets := sa.stats.echo_gets + 1,
              wake_queue_calls := sa.stats.wake_queue_calls + 1 } }
          else s3
        drain_dispatch none (fun s5 => some (IrqRet.NotServiced, n1, s5))
          (fun status1 s5 =>
            let er :=
              if isrc &&& (c.DATA_ORUNI ||| c.ERR_WRN ||| c.BUS_ERR ||| c.ERR_PASSIVE |||
                  c.ARB_LOST) ≠ 0 then
                sunxi_can_err c o isrc status1 s5
              else (true, s5)
            if er.1 then
              let s7 := wrReg Reg.INT isrc er.2
              let s8 := rdSt Reg.INT s7
              sunxi_can_interrupt_loop c o rxFuel fuel n1 s8
            else
              some (if n1 ≠ 0 then IrqRet.Handled else IrqRet.NotServiced, n1, er.2))
          (if isrc &&& c.RBUF_VLD ≠ 0 then sunxi_can_rx_drain c o rxFuel status s4
           else DrainRes.done status s4)
    else
      some (if n ≠ 0 then IrqRet.Handled else IrqRet.NotServiced, n, s1)

/-- Embedding of `sunxi_can_interrupt` (lines 473-526).  The fuel
`SUNXI_CAN_MAX_IRQ + 1` strictly dominates the loop's own `n < 20` bound, so
the fuel-exhaustion branch is unreachable from here. -/
def sunxi_can_interrupt (c : Consts) (o : Oracle) (rxFuel : Nat) (s : DevSt) :
    Option (IrqRet × Nat × DevSt) :=
  sunxi_can_interrupt_loop c o rxFuel (SUNXI_CAN_MAX_IRQ + 1) 0 s

/-- Sample values for the header bit masks, used only to build concrete runs
(the theorems are parametric in `Consts`). -/
def exConsts : Consts :=
  { RESET_MODE := 1, LOOPBACK_MODE := 2, LISTEN_ONLY_MODE := 4, BERR_IRQ_EN := 0x80,
    TBUF_RDY := 4, RBUF_RDY := 1, BUS_OFF := 0x80, ERR_STA := 0x40,
    WAKEUP := 0x10, TBUF_VLD := 2, RBUF_VLD := 1, DATA_ORUNI := 8, ERR_WRN := 4,
    BUS_ERR := 0x80, ERR_PASSIVE := 0x20, ARB_LOST := 0x40,
    BIT_ERR := 0x200000, FORM_ERR := 0x800000, STUFF_ERR := 0x400000,
    ERR_SEG_CODE := 0x1F0000, ERR_DIR := 0x100000,
    TRANS_REQ := 1, RELEASE_RBUF := 4, CLEAR_DOVERRUN := 8 }

/-- A device state at rest: all counters zero, controller error-active. -/
def initSt : DevSt :=
  { cnt := fun _ => 0, allocCnt := 0, writes := [], stats := {},
    canState := CanState.ERROR_ACTIVE, ctrlmode := 0, delivered := [], delays := 0 }

/-- Oracle whose registers all read zero and whose allocations succeed. -/
def oZero : Oracle := { rd := fun _ _ => 0, allocOk := fun _ => true }

/-- Oracle whose registers all read one and whose allocations succeed. -/
def oOne : Oracle := { rd := fun _ _ => 1, allocOk := fun _ => true }

/-- Oracle: the interrupt-source register always reads 4 (the sample
`ERR_WRN` bit), everything else reads zero, and every allocation fails. -/
def oEWAllocFail : Oracle :=
  { rd := fun r _ => if r = Reg.INT then 4 else 0, allocOk := fun _ => false }

/-- Oracle: the interrupt-source register always reads 4, everything else
reads zero, and every allocation succeeds. -/
def oEWAllocOk : Oracle :=
  { rd := fun r _ => if r = Reg.INT then 4 else 0, allocOk := fun _ => true }

/-- Oracle for a run in which the first interrupt-source read reports
receive-pending plus data-overrun (bits 1 and 8 of the sample constants),
the first status read reports receive-ready, the first allocation (the
receive frame buffer) fails, and every later allocation succeeds. -/
def oRxFailThenErr : Oracle :=
  { rd := fun r k =>
      if r = Reg.INT then (if k = 0 then 9 else 0)
      else if r = Reg.STA then (if k = 0 then 1 else 0)
      else 0,
    allocOk := fun k => if k = 0 then false else true }

/-- Oracle whose status register reads `0x500`, an arbitration-lost code
with bit position 5 in bits 8..12; allocations succeed. -/
def oAlc500 : Oracle :=
  { rd := fun r _ => if r = Reg.STA then 0x500 else 0, allocOk := fun _ => true }

/-- Oracle whose error-counter register first reads `0x50000` (rx counter 5
in bits 16..23) and then 10 (tx counter 10 in bits 0..7); allocations
succeed. -/
def oErrc5_10 : Oracle :=
  { rd := fun r k => if r = Reg.ERRC then (if k = 0 then 0x50000 else 10) else 0,
    allocOk := fun _ => true }

/-- Oracle whose status register reads an error-code capture with both the
sample bit-error and form-error bits set and the direction bit clear;
allocations succeed. -/
def oEccBitForm : Oracle :=
  { rd := fun r _ => if r = Reg.STA then 0xA00000 else 0, allocOk := fun _ => true }

/-- A device state already in bus-off with one bus-off notification issued. -/
def sBusOff1 : DevSt :=
  { initSt with canState := CanState.BUS_OFF, stats := { bus_off_calls := 1 } }

/-- A device state already in bus-off, no notifications issued yet. -/
def sBusOff0 : DevSt := { initSt with canState := CanState.BUS_OFF }

/-- Oracle whose error-counter register always reads `0x123456`. -/
def oErrcBig : Oracle :=
  { rd := fun r _ => if r = Reg.ERRC then 0x123456 else 0, allocOk := fun _ => true }

/-! ### Arithmetic helpers -/

theorem mask1 (x : Nat) : x &&& 1 = x % 2 := Nat.and_one_is_mod x

theorem mask3 (x : Nat) : x &&& 3 = x % 4 := by
  have h := Nat.and_pow_two_sub_one_eq_mod x 2
  norm_num at h
  exact h

theorem mask7 (x : Nat) : x &&& 7 = x % 8 := by
  have h := Nat.and_pow_two_sub_one_eq_mod x 3
  norm_num at h
  exact h

theorem mask15 (x : Nat) : x &&& 15 = x % 16 := by
  have h := Nat.and_pow_two_sub_one_eq_mod x 4
  norm_num at h
  exact h

theorem mask31 (x : Nat) : x &&& 31 = x % 32 := by
  have h := Nat.and_pow_two_sub_one_eq_mod x 5
  norm_num at h
  exact h

theorem mask255 (x : Nat) : x &&& 255 = x % 256 := by
  have h := Nat.and_pow_two_sub_one_eq_mod x 8
  norm_num at h
  exact h

theorem mask1023 (x : Nat) : x &&& 1023 = x % 1024 := by
  have h := Nat.and_pow_two_sub_one_eq_mod x 10
  norm_num at h
  exact h

theorem or_eq_add_pow (k a b : Nat) (ha : a % 2 ^ k = 0) (hb : b < 2 ^ k) :
    a ||| b = a + b := by
  have hd : 2 ^ k ∣ a := Nat.dvd_of_mod_eq_zero ha
  have h1 : 2 ^ k * (a / 2 ^ k) = a := Nat.mul_div_cancel' hd
  calc a ||| b = 2 ^ k * (a / 2 ^ k) ||| b := by rw [h1]
    _ = 2 ^ k * (a / 2 ^ k) + b := (Nat.mul_add_lt_is_or hb _).symm
    _ = a + b := by rw [h1]

theorem and_two_pow_of_lt {x k : Nat} (h : x < 2 ^ k) : x &&& 2 ^ k = 0 := by
  rw [Nat.and_two_pow, Nat.testBit_lt_two_pow h]
  simp

theorem add_two_pow_and_self {k r : Nat} (h : r < 2 ^ k) :
    (2 ^ k + r) &&& 2 ^ k = 2 ^ k := by
  have h1 : 2 ^ k ||| r = 2 ^ k + r := or_eq_add_pow k (2 ^ k) r (Nat.mod_self _) h
  rw [← h1, Nat.and_distrib_right, Nat.and_self, and_two_pow_of_lt h, Nat.or_zero]

/-- Four disjoint bit fields combined by `|||` equal their sum. -/
theorem fourfield_or (a b c d : Nat) (ha : a ≤ 1023) (hb : b ≤ 3) (hc : c ≤ 15) (hd : d ≤ 7) :
    a ||| b * 2 ^ 14 ||| c * 2 ^ 16 ||| d * 2 ^ 20 =
      d * 2 ^ 20 + (c * 2 ^ 16 + (b * 2 ^ 14 + a)) := by
  rw [Nat.or_comm a (b * 2 ^ 14)]
  rw [or_eq_add_pow 14 (b * 2 ^ 14) a (Nat.mul_mod_left _ _) (by norm_num; omega)]
  rw [Nat.or_comm (b * 2 ^ 14 + a) (c * 2 ^ 16)]
  rw [or_eq_add_pow 16 (c * 2 ^ 16) (b * 2 ^ 14 + a) (Nat.mul_mod_left _ _)
    (by norm_num; omega)]
  rw [Nat.or_comm (c * 2 ^ 16 + (b * 2 ^ 14 + a)) (d * 2 ^ 20)]
  rw [or_eq_add_pow 20 (d * 2 ^ 20) (c * 2 ^ 16 + (b * 2 ^ 14 + a)) (Nat.mul_mod_left _ _)
    (by norm_num; omega)]

/-- The timing-register value as a plain sum of its disjoint fields. -/
theorem bittiming_cfg_eq (brp sjw ps ps1 ps2 : Nat) (t : Bool) :
    sunxi_can_set_bittiming_cfg brp sjw ps ps1 ps2 t =
      (if t then 2 ^ 23 else 0) + ((sub32 ps2 1 &&& 0x7) * 2 ^ 20 +
        ((sub32 (add32 ps ps1) 1 &&& 0xF) * 2 ^ 16 +
          ((sub32 sjw 1 &&& 0x3) * 2 ^ 14 + (sub32 brp 1 &&& 0x3FF)))) := by
  have ha : sub32 brp 1 &&& 0x3FF ≤ 1023 := Nat.and_le_right
  have hb : sub32 sjw 1 &&& 0x3 ≤ 3 := Nat.and_le_right
  have hc : sub32 (add32 ps ps1) 1 &&& 0xF ≤ 15 := Nat.and_le_right
  have hd : sub32 ps2 1 &&& 0x7 ≤ 7 := Nat.and_le_right
  have key := fourfield_or (sub32 brp 1 &&& 0x3FF) (sub32 sjw 1 &&& 0x3)
    (sub32 (add32 ps ps1) 1 &&& 0xF) (sub32 ps2 1 &&& 0x7) ha hb hc hd
  cases t with
  | false =>
    simp only [sunxi_can_set_bittiming_cfg, Bool.false_eq_true, if_false, Nat.shiftLeft_eq]
    rw [key]
    omega
  | true =>
    simp only [sunxi_can_set_bittiming_cfg, if_true, Nat.shiftLeft_eq]
    rw [key]
    rw [show (0x800000 : Nat) = 2 ^ 23 from by norm_num]
    rw [Nat.or_comm]
    rw [or_eq_add_pow 23 (2 ^ 23)
      ((sub32 ps2 1 &&& 0x7) * 2 ^ 20 +
        ((sub32 (add32 ps ps1) 1 &&& 0xF) * 2 ^ 16 +
          ((sub32 sjw 1 &&& 0x3) * 2 ^ 14 + (sub32 brp 1 &&& 0x3FF))))
      (Nat.mod_self _) (by norm_num; omega)]

/-- Claim C2: the bit-timing setter's register value carries
`(brp-1) & 0x3FF` in bits 0..9, `(sjw-1) & 0x3` in bits 14..15,
`(prop_seg+phase_seg1-1) & 0xF` in bits 16..19, `(phase_seg2-1) & 0x7` in
bits 20..22 and bit 23 exactly when triple sampling is requested: masking
each field back out of the produced value reproduces the masked input, and
the claim's example `brp=8, sjw=2, seg1=10, seg2=4, triple=0` yields
low 10 bits 7, bits 14-15 = 1, bits 16-19 = 9, bits 20-22 = 3, bit 23 = 0
(register value `0x394007`). -/
theorem C2_bittiming_fields (brp sjw prop_seg phase_seg1 phase_seg2 : Nat) (triple : Bool) :
    (sunxi_can_set_bittiming_cfg brp sjw prop_seg phase_seg1 phase_seg2 triple &&& 0x3FF
      = sub32 brp 1 &&& 0x3FF) ∧
    ((sunxi_can_set_bittiming_cfg brp sjw prop_seg phase_seg1 phase_seg2 triple >>> 14) &&& 0x3
      = sub32 sjw 1 &&& 0x3) ∧
    ((sunxi_can_set_bittiming_cfg brp sjw prop_seg phase_seg1 phase_seg2 triple >>> 16) &&& 0xF
      = sub32 (add32 prop_seg phase_seg1) 1 &&& 0xF) ∧
    ((sunxi_can_set_bittiming_cfg brp sjw prop_seg phase_seg1 phase_seg2 triple >>> 20) &&& 0x7
      = sub32 phase_seg2 1 &&& 0x7) ∧
    (sunxi_can_set_bittiming_cfg brp sjw prop_seg phase_seg1 phase_seg2 triple &&& 0x800000
      = if triple then 0x800000 else 0) ∧
    sunxi_can_set_bittiming_cfg 8 2 5 5 4 false = 0x394007 := by
  refine ⟨?_, ?_, ?_, ?_, ?_, by decide⟩
  · rw [bittiming_cfg_eq, mask1023, mask1023, mask3, mask15, mask7]
    cases triple <;> norm_num <;> omega
  · rw [bittiming_cfg_eq, Nat.shiftRight_eq_div_pow, mask1023, mask3, mask3, mask15, mask7]
    cases triple <;> norm_num <;> omega
  · rw [bittiming_cfg_eq, Nat.shiftRight_eq_div_pow, mask1023, mask3, mask15, mask15, mask7]
    cases triple <;> norm_num <;> omega
  · rw [bittiming_cfg_eq, Nat.shiftRight_eq_div_pow, mask1023, mask3, mask15, mask7, mask7]
    cases triple <;> norm_num <;> omega
  · have ha : sub32 brp 1 &&& 0x3FF ≤ 1023 := Nat.and_le_right
    have hb : sub32 sjw 1 &&& 0x3 ≤ 3 := Nat.and_le_right
    have hc : sub32 (add32 prop_seg phase_seg1) 1 &&& 0xF ≤ 15 := Nat.and_le_right
    have hd : sub32 phase_seg2 1 &&& 0x7 ≤ 7 := Nat.and_le_right
    rw [bittiming_cfg_eq]
    rw [show (0x800000 : Nat) = 2 ^ 23 from by norm_num]
    cases triple with
    | true => exact add_two_pow_and_self (by norm_num; omega)
    | false =>
      simp only [Bool.false_eq_true, if_false, Nat.zero_add]
      exact and_two_pow_of_lt (by norm_num; omega)

/-- Claim C10: for every value of the hardware error-counter register the
public query returns `rxerr = 0` (its `(v & 0x0F00) >> 16` extraction is
zero for every `v`) and `txerr` equal to the low 4 bits only, whereas the
error state machine (`err_statechange`) reads the same register as
`rxerr = (v >> 16) & 0xFF` and `txerr = v & 0xFF`; whenever those exceed a
low nibble (nonzero rx byte, or tx byte above 0xF) the pairs disagree. -/
theorem C10_berr_counter (o : Oracle) (s : DevSt) (v : Nat)
    (h1 : o.rd Reg.ERRC (s.cnt Reg.ERRC) = v)
    (h2 : o.rd Reg.ERRC (s.cnt Reg.ERRC + 1) = v) :
    (sunxi_can_get_berr_counter o s).1.2 = 0 ∧
    (sunxi_can_get_berr_counter o s).1.1 = v &&& 0x000F ∧
    (((v >>> 16) &&& 0xFF ≠ 0 ∨ 0xF < v &&& 0xFF) →
      ((sunxi_can_get_berr_counter o s).1.1, (sunxi_can_get_berr_counter o s).1.2) ≠
        (v &&& 0xFF, (v >>> 16) &&& 0xFF)) := by
  have hrd : rdVal o Reg.ERRC s = v := h1
  have hrd2 : rdVal o Reg.ERRC (rdSt Reg.ERRC s) = v := by
    simp only [rdVal, rdSt]
    simpa using h2
  have hzero : ∀ w : Nat, (w &&& 0x0F00) >>> 16 = 0 := by
    intro w
    have hle : w &&& 0x0F00 ≤ 0x0F00 := Nat.and_le_right
    rw [Nat.shiftRight_eq_div_pow]
    norm_num
    omega
  refine ⟨?_, ?_, ?_⟩
  · simp only [sunxi_can_get_berr_counter, hrd2]
    exact hzero v
  · simp only [sunxi_can_get_berr_counter, hrd]
  · intro hbig heq
    simp only [sunxi_can_get_berr_counter, hrd, hrd2, Prod.mk.injEq] at heq
    rcases heq with ⟨htx, hrx⟩
    rw [hzero v] at hrx
    rcases hbig with hrxbig | htxbig
    · exact hrxbig hrx.symm
    · have e1 : v &&& 0x000F = v % 16 := mask15 v
      have e2 : v &&& 0xFF = v % 256 := mask255 v
      rw [e1, e2] at htx
      omega

/-- Witness for C10 at the concrete register value `0x123456`. -/
theorem C10_berr_counter_witness :
    (sunxi_can_get_berr_counter oErrcBig initSt).1.2 = 0 ∧
    (sunxi_can_get_berr_counter oErrcBig initSt).1.1 = 0x123456 &&& 0x000F ∧
    (((0x123456 >>> 16) &&& 0xFF ≠ 0 ∨ 0xF < 0x123456 &&& 0xFF) →
      ((sunxi_can_get_berr_counter oErrcBig initSt).1.1,
        (sunxi_can_get_berr_counter oErrcBig initSt).1.2) ≠
        (0x123456 &&& 0xFF, (0x123456 >>> 16) &&& 0xFF)) :=
  C10_berr_counter oErrcBig initSt 0x123456 rfl rfl

/-- Claim C9 (code bug): in the arbitration-lost branch the driver stores
`(alc & 0x1f) >> 8` in `data[0]`, which is 0 for every captured code, so the
lost-arbitration bit position is never recorded.  At the captured code
`0x500` (bit position `(alc >> 8) & 0x1f = 5`) the run increments the
arbitration-lost statistic and `tx_errors` by one as claimed, but delivers a
frame whose `data[0]` is 0. -/
theorem C9_arblost_position_zero :
    (sunxi_can_err exConsts oAlc500 0x40 0 initSt).2.stats.arbitration_lost = 1 ∧
    (sunxi_can_err exConsts oAlc500 0x40 0 initSt).2.stats.tx_errors = 1 ∧
    ((sunxi_can_err exConsts oAlc500 0x40 0 initSt).2.delivered.map (fun f => f.data 0)) = [0] ∧
    (0x500 >>> 8) &&& 0x1F = 5 ∧
    (∀ alc : Nat, (alc &&& 0x1F) >>> 8 = 0) := by
  refine ⟨by decide, by decide, by decide, by decide, ?_⟩
  intro alc
  have h : alc &&& 0x1F ≤ 0x1F := Nat.and_le_right
  rw [Nat.shiftRight_eq_div_pow]
  norm_num
  omega

/-! ### Preservation facts for the error-state-machine blocks -/

theorem err_overrun_pres (c : Consts) (isrc : Nat) (x : ErrCtx) :
    (err_overrun c isrc x).state = x.state ∧
    (err_overrun c isrc x).dev.canState = x.dev.canState ∧
    (err_overrun c isrc x).dev.cnt = x.dev.cnt ∧
    (err_overrun c isrc x).dev.delivered = x.dev.delivered ∧
    (err_overrun c isrc x).dev.stats.bus_off_calls = x.dev.stats.bus_off_calls ∧
    (err_overrun c isrc x).dev.stats.error_warning = x.dev.stats.error_warning ∧
    (err_overrun c isrc x).dev.stats.error_passive = x.dev.stats.error_passive ∧
    (err_overrun c isrc x).cf.data 2 = x.cf.data 2 ∧
    (err_overrun c isrc x).cf.data 3 = x.cf.data 3 ∧
    (err_overrun c isrc x).cf.can_dlc = x.cf.can_dlc := by
  unfold err_overrun
  split_ifs <;> simp [fsetData, fsetId, sunxi_can_write_cmdreg, wrReg]

theorem err_warning_pres (c : Consts) (isrc status : Nat) (x : ErrCtx) :
    (err_warning c isrc status x).dev.canState = x.dev.canState ∧
    (err_warning c isrc status x).dev.cnt = x.dev.cnt ∧
    (err_warning c isrc status x).dev.delivered = x.dev.delivered ∧
    (err_warning c isrc status x).dev.stats.error_warning = x.dev.stats.error_warning ∧
    (err_warning c isrc status x).dev.stats.error_passive = x.dev.stats.error_passive ∧
    (err_warning c isrc status x).cf.data 2 = x.cf.data 2 ∧
    (err_warning c isrc status x).cf.data 3 = x.cf.data 3 ∧
    (err_warning c isrc status x).cf.can_dlc = x.cf.can_dlc := by
  unfold err_warning
  split_ifs <;> simp [fsetId]

theorem err_warning_busoff (c : Consts) (isrc status : Nat) (x : ErrCtx)
    (hwrn : isrc &&& c.ERR_WRN ≠ 0) (hboff : status &&& c.BUS_OFF ≠ 0) :
    (err_warning c isrc status x).state = CanState.BUS_OFF ∧
    (err_warning c isrc status x).dev.stats.bus_off_calls =
      x.dev.stats.bus_off_calls + 1 := by
  unfold err_warning
  rw [if_pos hwrn, if_pos hboff]
  exact ⟨rfl, rfl⟩

theorem err_buserr_pres (c : Consts) (o : Oracle) (isrc : Nat) (x : ErrCtx) :
    (err_buserr c o isrc x).state = x.state ∧
    (err_buserr c o isrc x).dev.canState = x.dev.canState ∧
    (err_buserr c o isrc x).dev.cnt Reg.ERRC = x.dev.cnt Reg.ERRC ∧
    (err_buserr c o isrc x).dev.delivered = x.dev.delivered ∧
    (err_buserr c o isrc x).dev.stats.bus_off_calls = x.dev.stats.bus_off_calls ∧
    (err_buserr c o isrc x).dev.stats.error_warning = x.dev.stats.error_warning ∧
    (err_buserr c o isrc x).dev.stats.error_passive = x.dev.stats.error_passive ∧
    (err_buserr c o isrc x).cf.can_dlc = x.cf.can_dlc := by
  unfold err_buserr
  split_ifs <;> simp [fsetData, fsetId, rdSt, rdVal] <;> split_ifs <;> simp

theorem err_passive_dev (c : Consts) (isrc status : Nat) (x : ErrCtx) :
    (err_passive_branch c isrc status x).dev = x.dev ∧
    (err_passive_branch c isrc status x).cf = x.cf := by
  unfold err_passive_branch
  split_ifs <;> exact ⟨rfl, rfl⟩

theorem err_passive_skip (c : Consts) (isrc status : Nat) (x : ErrCtx)
    (hpass : isrc &&& c.ERR_PASSIVE = 0) :
    err_passive_branch c isrc status x = x := by
  unfold err_passive_branch
  rw [if_neg (by simp [hpass])]

theorem err_arblost_pres (c : Consts) (o : Oracle) (isrc : Nat) (x : ErrCtx) :
    (err_arblost c o isrc x).state = x.state ∧
    (err_arblost c o isrc x).dev.canState = x.dev.canState ∧
    (err_arblost c o isrc x).dev.cnt Reg.ERRC = x.dev.cnt Reg.ERRC ∧
    (err_arblost c o isrc x).dev.delivered = x.dev.delivered ∧
    (err_arblost c o isrc x).dev.stats.bus_off_calls = x.dev.stats.bus_off_calls ∧
    (err_arblost c o isrc x).dev.stats.error_warning = x.dev.stats.error_warning ∧
    (err_arblost c o isrc x).dev.stats.error_passive = x.dev.stats.error_passive ∧
    (err_arblost c o isrc x).cf.data 2 = x.cf.data 2 ∧
    (err_arblost c o isrc x).cf.data 3 = x.cf.data 3 ∧
    (err_arblost c o isrc x).cf.can_dlc = x.cf.can_dlc := by
  unfold err_arblost
  split_ifs <;> simp [fsetData, fsetId, rdSt, rdVal]

theorem err_statechange_state (o : Oracle) (x : ErrCtx) :
    (err_statechange o x).state = x.state := by
  unfold err_statechange
  split_ifs <;> simp

theorem err_statechange_data23 (o : Oracle) (x : ErrCtx) :
    (err_statechange o x).cf.data 2 = x.cf.data 2 ∧
    (err_statechange o x).cf.data 3 = x.cf.data 3 ∧
    (err_statechange o x).cf.can_dlc = x.cf.can_dlc ∧
    (err_statechange o x).dev.delivered = x.dev.delivered := by
  unfold err_statechange
  split_ifs <;> simp [fsetData, fsetId, rdSt, rdVal]

theorem err_statechange_skip (o : Oracle) (x : ErrCtx)
    (h : ¬(x.state = CanState.ERROR_WARNING ∨ x.state = CanState.ERROR_PASSIVE)) :
    err_statechange o x = x := by
  unfold err_statechange
  rw [if_neg (fun hc => h hc.2)]

theorem err_statechange_fire (o : Oracle) (x : ErrCtx)
    (h1 : x.state ≠ x.dev.canState)
    (h2 : x.state = CanState.ERROR_WARNING ∨ x.state = CanState.ERROR_PASSIVE) :
    (err_statechange o x).cf.data 6 = rdVal o Reg.ERRC (rdSt Reg.ERRC x.dev) &&& 0xFF ∧
    (err_statechange o x).cf.data 7 = (rdVal o Reg.ERRC x.dev >>> 16) &&& 0xFF ∧
    (err_statechange o x).dev.delivered = x.dev.delivered ∧
    (err_statechange o x).state = x.state ∧
    (x.state = CanState.ERROR_WARNING →
      (err_statechange o x).cf.data 1 =
        (if rdVal o Reg.ERRC (rdSt Reg.ERRC x.dev) &&& 0xFF >
            (rdVal o Reg.ERRC x.dev >>> 16) &&& 0xFF
         then CAN_ERR_CRTL_TX_WARNING else CAN_ERR_CRTL_RX_WARNING) ∧
      (err_statechange o x).dev.stats.error_warning = x.dev.stats.error_warning + 1 ∧
      (err_statechange o x).dev.stats.error_passive = x.dev.stats.error_passive) ∧
    (x.state = CanState.ERROR_PASSIVE →
      (err_statechange o x).cf.data 1 =
        (if rdVal o Reg.ERRC (rdSt Reg.ERRC x.dev) &&& 0xFF >
            (rdVal o Reg.ERRC x.dev >>> 16) &&& 0xFF
         then CAN_ERR_CRTL_TX_PASSIVE else CAN_ERR_CRTL_RX_PASSIVE) ∧
      (err_statechange o x).dev.stats.error_passive = x.dev.stats.error_passive + 1 ∧
      (err_statechange o x).dev.stats.error_warning = x.dev.stats.error_warning) := by
  unfold err_statechange
  rw [if_pos (And.intro h1 h2)]
  rcases h2 with hW | hP
  · refine ⟨?_, ?_, ?_, ?_, fun _ => ⟨?_, ?_, ?_⟩, fun hP => ?_⟩
    · simp [hW, fsetData, fsetId, rdSt, rdVal]
    · simp [hW, fsetData, fsetId, rdSt, rdVal]
    · simp [hW, fsetData, fsetId, rdSt, rdVal]
    · simp [hW, fsetData, fsetId, rdSt, rdVal]
    · simp [hW, fsetData, fsetId, rdSt, rdVal]
    · simp [hW, fsetData, fsetId, rdSt, rdVal]
    · simp [hW, fsetData, fsetId, rdSt, rdVal]
    · rw [hW] at hP
      simp at hP
  · refine ⟨?_, ?_, ?_, ?_, fun hW => ?_, fun _ => ⟨?_, ?_, ?_⟩⟩
    · simp [hP, fsetData, fsetId, rdSt, rdVal]
    · simp [hP, fsetData, fsetId, rdSt, rdVal]
    · simp [hP, fsetData, fsetId, rdSt, rdVal]
    · simp [hP, fsetData, fsetId, rdSt, rdVal]
    · rw [hP] at hW
      simp at hW
    · simp [hP, fsetData, fsetId, rdSt, rdVal]
    · simp [hP, fsetData, fsetId, rdSt, rdVal]
    · simp [hP, fsetData, fsetId, rdSt, rdVal]

theorem sunxi_can_err_ok (c : Consts) (o : Oracle) (isrc status : Nat) (s : DevSt)
    (halloc : o.allocOk s.allocCnt = true) :
    sunxi_can_err c o isrc status s =
      (true, err_commit (err_statechange o (err_branches c o isrc status
        { dev := { s with allocCnt := s.allocCnt + 1 }, cf := mk_err_frame,
          state := s.canState }))) := by
  unfold sunxi_can_err
  rw [if_pos halloc]

/-- Claim C5 (amended): when the stored Controller Mode is already `BUS_OFF`
and a snapshot arrives with the error-warning interrupt bit set (and the
error-passive bit clear) and status showing bus-off, the resulting mode is
still `BUS_OFF`, but the carrier-down notification (`can_bus_off`) is issued
again — the code does not guard on the prior mode, so bus-off notifications
are incremented once per such invocation rather than staying put. -/
theorem C5_busoff_renotify (c : Consts) (o : Oracle) (isrc status : Nat) (s : DevSt)
    (hstate : s.canState = CanState.BUS_OFF)
    (hwrn : isrc &&& c.ERR_WRN ≠ 0)
    (hboff : status &&& c.BUS_OFF ≠ 0)
    (hpass : isrc &&& c.ERR_PASSIVE = 0)
    (halloc : o.allocOk s.allocCnt = true) :
    (sunxi_can_err c o isrc status s).1 = true ∧
    (sunxi_can_err c o isrc status s).2.canState = CanState.BUS_OFF ∧
    (sunxi_can_err c o isrc status s).2.stats.bus_off_calls =
      s.stats.bus_off_calls + 1 := by
  rw [sunxi_can_err_ok c o isrc status s halloc]
  unfold err_branches
  rw [err_passive_skip c isrc status _ hpass]
  set x0 : ErrCtx :=
    { dev := { s with allocCnt := s.allocCnt + 1 }, cf := mk_err_frame,
      state := s.canState } with hx0
  obtain ⟨q1, _, _, _, q5, _, _, _, _, _⟩ := err_overrun_pres c isrc x0
  set x1 := err_overrun c isrc x0 with hx1
  obtain ⟨w1, w2⟩ := err_warning_busoff c isrc status x1 hwrn hboff
  set x2 := err_warning c isrc status x1 with hx2
  obtain ⟨b1, _, _, _, b5, _, _, _⟩ := err_buserr_pres c o isrc x2
  set x3 := err_buserr c o isrc x2 with hx3
  obtain ⟨a1, _, _, _, a5, _, _, _, _, _⟩ := err_arblost_pres c o isrc x3
  set x4 := err_arblost c o isrc x3 with hx4
  have hst4 : x4.state = CanState.BUS_OFF := by rw [a1, b1, w1]
  have hsc : err_statechange o x4 = x4 :=
    err_statechange_skip o x4 (by rw [hst4]; decide)
  rw [hsc]
  refine ⟨rfl, ?_, ?_⟩
  · show (err_commit x4).canState = CanState.BUS_OFF
    simp only [err_commit]
    exact hst4
  · show (err_commit x4).stats.bus_off_calls = s.stats.bus_off_calls + 1
    simp only [err_commit]
    rw [a5, b5, w2, q5]

/-- Counterexample to claim C5 as stated: with the controller already in
`BUS_OFF` and one bus-off notification already issued, a repeated
error-warning interrupt with bus-off status makes the driver call
`can_bus_off` again (count 1 becomes 2) — the claim says the notification is
not issued again. -/
theorem C5_counterexample :
    sBusOff1.canState = CanState.BUS_OFF ∧
    sBusOff1.stats.bus_off_calls = 1 ∧
    (sunxi_can_err exConsts oZero 4 0x80 sBusOff1).2.canState = CanState.BUS_OFF ∧
    (sunxi_can_err exConsts oZero 4 0x80 sBusOff1).2.stats.bus_off_calls = 2 := by
  refine ⟨rfl, rfl, by decide, by decide⟩

/-- Witness for C5 at a concrete bus-off state and snapshot. -/
theorem C5_busoff_renotify_witness :
    (sunxi_can_err exConsts oZero 4 0x80 sBusOff0).1 = true ∧
    (sunxi_can_err exConsts oZero 4 0x80 sBusOff0).2.canState = CanState.BUS_OFF ∧
    (sunxi_can_err exConsts oZero 4 0x80 sBusOff0).2.stats.bus_off_calls =
      sBusOff0.stats.bus_off_calls + 1 :=
  C5_busoff_renotify exConsts oZero 4 0x80 sBusOff0 rfl (by decide) (by decide) (by decide) rfl

theorem err_branches_pres (c : Consts) (o : Oracle) (isrc status : Nat) (x0 : ErrCtx) :
    (err_branches c o isrc status x0).dev.canState = x0.dev.canState ∧
    (err_branches c o isrc status x0).dev.cnt Reg.ERRC = x0.dev.cnt Reg.ERRC ∧
    (err_branches c o isrc status x0).dev.delivered = x0.dev.delivered ∧
    (err_branches c o isrc status x0).dev.stats.error_warning =
      x0.dev.stats.error_warning ∧
    (err_branches c o isrc status x0).dev.stats.error_passive =
      x0.dev.stats.error_passive := by
  unfold err_branches
  obtain ⟨_, o2, o3, o4, _, o6, o7, _, _, _⟩ := err_overrun_pres c isrc x0
  obtain ⟨w1, w2, w3, w4, w5, _, _, _⟩ :=
    err_warning_pres c isrc status (err_overrun c isrc x0)
  obtain ⟨_, b2, b3, b4, _, b6, b7, _⟩ :=
    err_buserr_pres c o isrc (err_warning c isrc status (err_overrun c isrc x0))
  obtain ⟨pd, _⟩ := err_passive_dev c isrc status
    (err_buserr c o isrc (err_warning c isrc status (err_overrun c isrc x0)))
  obtain ⟨_, a2, a3, a4, _, a6, a7, _, _, _⟩ := err_arblost_pres c o isrc
    (err_passive_branch c isrc status
      (err_buserr c o isrc (err_warning c isrc status (err_overrun c isrc x0))))
  refine ⟨?_, ?_, ?_, ?_, ?_⟩
  · rw [a2, pd, b2, w1, o2]
  · rw [a3, pd, b3, w2, o3]
  · rw [a4, pd, b4, w3, o4]
  · rw [a6, pd, b6, w4, o6]
  · rw [a7, pd, b7, w5, o7]

/-- Claim C6: whenever an error-state-machine invocation's resulting mode
differs from the prior one and is warning or passive, the counters are
re-read from the error-counter register at that moment (`rxerr` from the
first read's bits 16..23, `txerr` from the second read's bits 0..7), the
delivered diagnostic frame carries the transmit-side subtype in `data[1]`
exactly when `txerr > rxerr` (receive side otherwise), records both counts
in `data[6]`/`data[7]`, and the matching warning/passive statistic is
incremented. -/
theorem C6_warning_passive_tiebreak (c : Consts) (o : Oracle) (isrc status : Nat) (s : DevSt)
    (halloc : o.allocOk s.allocCnt = true)
    (hchange : (sunxi_can_err c o isrc status s).2.canState ≠ s.canState)
    (hwp : (sunxi_can_err c o isrc status s).2.canState = CanState.ERROR_WARNING ∨
      (sunxi_can_err c o isrc status s).2.canState = CanState.ERROR_PASSIVE) :
    ∃ f : can_frame,
      (sunxi_can_err c o isrc status s).2.delivered = s.delivered ++ [f] ∧
      f.data 6 = o.rd Reg.ERRC (s.cnt Reg.ERRC + 1) &&& 0xFF ∧
      f.data 7 = (o.rd Reg.ERRC (s.cnt Reg.ERRC) >>> 16) &&& 0xFF ∧
      ((sunxi_can_err c o isrc status s).2.canState = CanState.ERROR_WARNING →
        f.data 1 = (if o.rd Reg.ERRC (s.cnt Reg.ERRC + 1) &&& 0xFF >
              (o.rd Reg.ERRC (s.cnt Reg.ERRC) >>> 16) &&& 0xFF
            then CAN_ERR_CRTL_TX_WARNING else CAN_ERR_CRTL_RX_WARNING) ∧
        (sunxi_can_err c o isrc status s).2.stats.error_warning =
          s.stats.error_warning + 1 ∧
        (sunxi_can_err c o isrc status s).2.stats.error_passive =
          s.stats.error_passive) ∧
      ((sunxi_can_err c o isrc status s).2.canState = CanState.ERROR_PASSIVE →
        f.data 1 = (if o.rd Reg.ERRC (s.cnt Reg.ERRC + 1) &&& 0xFF >
              (o.rd Reg.ERRC (s.cnt Reg.ERRC) >>> 16) &&& 0xFF
            then CAN_ERR_CRTL_TX_PASSIVE else CAN_ERR_CRTL_RX_PASSIVE) ∧
        (sunxi_can_err c o isrc status s).2.stats.error_passive =
          s.stats.error_passive + 1 ∧
        (sunxi_can_err c o isrc status s).2.stats.error_warning =
          s.stats.error_warning) := by
  rw [sunxi_can_err_ok c o isrc status s halloc] at hchange hwp ⊢
  dsimp only at hchange hwp ⊢
  set x0 : ErrCtx :=
    { dev := { s with allocCnt := s.allocCnt + 1 }, cf := mk_err_frame,
      state := s.canState } with hx0
  obtain ⟨e1, e2, e3, e4, e5⟩ := err_branches_pres c o isrc status x0
  set B := err_branches c o isrc status x0 with hB
  have hrs : (err_commit (err_statechange o B)).canState = B.state := by
    simp only [err_commit]
    exact err_statechange_state o B
  rw [hrs] at hchange hwp
  have hcnt : B.dev.cnt Reg.ERRC = s.cnt Reg.ERRC := by
    rw [e2, hx0]
  have hcond1 : B.state ≠ B.dev.canState := by
    rw [e1, hx0]
    exact hchange
  obtain ⟨g6, g7, gdel, gst, gW, gP⟩ := err_statechange_fire o B hcond1 hwp
  have h7 : rdVal o Reg.ERRC B.dev = o.rd Reg.ERRC (s.cnt Reg.ERRC) := by
    simp only [rdVal]
    rw [hcnt]
  have h6 : rdVal o Reg.ERRC (rdSt Reg.ERRC B.dev) = o.rd Reg.ERRC (s.cnt Reg.ERRC + 1) := by
    simp only [rdVal, rdSt]
    simp
    rw [hcnt]
  have hdel : (err_commit (err_statechange o B)).delivered =
      s.delivered ++ [(err_statechange o B).cf] := by
    simp only [err_commit]
    rw [gdel, e3, hx0]
  have hwstat : (err_commit (err_statechange o B)).stats.error_warning =
      (err_statechange o B).dev.stats.error_warning := by
    simp only [err_commit]
  have hpstat : (err_commit (err_statechange o B)).stats.error_passive =
      (err_statechange o B).dev.stats.error_passive := by
    simp only [err_commit]
  have hBw : B.dev.stats.error_warning = s.stats.error_warning := by
    rw [e4, hx0]
  have hBp : B.dev.stats.error_passive = s.stats.error_passive := by
    rw [e5, hx0]
  refine ⟨(err_statechange o B).cf, hdel, ?_, ?_, ?_, ?_⟩
  · rw [g6, h6]
  · rw [g7, h7]
  · intro hW
    rw [hrs] at hW
    obtain ⟨d1, dw, dp⟩ := gW hW
    refine ⟨?_, ?_, ?_⟩
    · rw [d1, h6, h7]
    · rw [hwstat, dw, hBw]
    · rw [hpstat, dp, hBp]
  · intro hP
    rw [hrs] at hP
    obtain ⟨d1, dp, dw⟩ := gP hP
    refine ⟨?_, ?_, ?_⟩
    · rw [d1, h6, h7]
    · rw [hpstat, dp, hBp]
    · rw [hwstat, dw, hBw]

/-- Witness for C6: entering `ERROR_WARNING` from `ERROR_ACTIVE` with
`txerr = 10 > rxerr = 5` the delivered frame reports the transmit-warning
subtype and records both counts. -/
theorem C6_warning_passive_tiebreak_witness :
    ∃ f : can_frame,
      (sunxi_can_err exConsts oErrc5_10 4 0x40 initSt).2.delivered =
        initSt.delivered ++ [f] ∧
      f.data 6 = oErrc5_10.rd Reg.ERRC (initSt.cnt Reg.ERRC + 1) &&& 0xFF ∧
      f.data 7 = (oErrc5_10.rd Reg.ERRC (initSt.cnt Reg.ERRC) >>> 16) &&& 0xFF ∧
      ((sunxi_can_err exConsts oErrc5_10 4 0x40 initSt).2.canState = CanState.ERROR_WARNING →
        f.data 1 = (if oErrc5_10.rd Reg.ERRC (initSt.cnt Reg.ERRC + 1) &&& 0xFF >
              (oErrc5_10.rd Reg.ERRC (initSt.cnt Reg.ERRC) >>> 16) &&& 0xFF
            then CAN_ERR_CRTL_TX_WARNING else CAN_ERR_CRTL_RX_WARNING) ∧
        (sunxi_can_err exConsts oErrc5_10 4 0x40 initSt).2.stats.error_warning =
          initSt.stats.error_warning + 1 ∧
        (sunxi_can_err exConsts oErrc5_10 4 0x40 initSt).2.stats.error_passive =
          initSt.stats.error_passive) ∧
      ((sunxi_can_err exConsts oErrc5_10 4 0x40 initSt).2.canState = CanState.ERROR_PASSIVE →
        f.data 1 = (if oErrc5_10.rd Reg.ERRC (initSt.cnt Reg.ERRC + 1) &&& 0xFF >
              (oErrc5_10.rd Reg.ERRC (initSt.cnt Reg.ERRC) >>> 16) &&& 0xFF
            then CAN_ERR_CRTL_TX_PASSIVE else CAN_ERR_CRTL_RX_PASSIVE) ∧
        (sunxi_can_err exConsts oErrc5_10 4 0x40 initSt).2.stats.error_passive =
          initSt.stats.error_passive + 1 ∧
        (sunxi_can_err exConsts oErrc5_10 4 0x40 initSt).2.stats.error_warning =
          initSt.stats.error_warning) :=
  C6_warning_passive_tiebreak exConsts oErrc5_10 4 0x40 initSt rfl (by decide) (by decide)

theorem err_buserr_fire (c : Consts) (o : Oracle) (isrc : Nat) (x : ErrCtx)
    (hbus : isrc &&& c.BUS_ERR ≠ 0) (hd2 : x.cf.data 2 = 0) :
    (err_buserr c o isrc x).cf.data 2 &&&
        (CAN_ERR_PROT_BIT ||| CAN_ERR_PROT_FORM ||| CAN_ERR_PROT_STUFF) =
      (if rdVal o Reg.STA x.dev &&& c.BIT_ERR ≠ 0 then CAN_ERR_PROT_BIT
       else if rdVal o Reg.STA x.dev &&& c.FORM_ERR ≠ 0 then CAN_ERR_PROT_FORM
       else if rdVal o Reg.STA x.dev &&& c.STUFF_ERR ≠ 0 then CAN_ERR_PROT_STUFF
       else CAN_ERR_PROT_UNSPEC) ∧
    ((rdVal o Reg.STA x.dev &&& c.BIT_ERR = 0 ∧ rdVal o Reg.STA x.dev &&& c.FORM_ERR = 0 ∧
        rdVal o Reg.STA x.dev &&& c.STUFF_ERR = 0) →
      (err_buserr c o isrc x).cf.data 3 =
        ((rdVal o Reg.STA x.dev &&& c.ERR_SEG_CODE) >>> 16) % 256) := by
  refine ⟨?_, ?_⟩
  · unfold err_buserr
    rw [if_pos hbus]
    simp only [rdVal, rdSt, fsetData, fsetId]
    split_ifs <;> simp [hd2] <;> decide
  · intro hz
    obtain ⟨z1, z2, z3⟩ := hz
    simp only [rdVal] at z1 z2 z3
    unfold err_buserr
    rw [if_pos hbus]
    simp only [rdVal, rdSt, fsetData, fsetId]
    simp only [z1, z2, z3]
    split_ifs <;> simp_all

/-- Claim C8: when the snapshot has the bus-error interrupt bit set, the
delivered diagnostic frame's protocol-error subtype (`data[2]` restricted to
the bit/form/stuff subtype bits) is assigned by testing the captured
error-code register in strict priority order bit, form, stuff, unspecified —
so exactly one subtype is reported, and in particular when bit-error and
form-error are indicated simultaneously only the bit-error subtype appears;
in the unspecified case the segment code lands in `data[3]`. -/
theorem C8_buserr_subtype (c : Consts) (o : Oracle) (isrc status : Nat) (s : DevSt)
    (halloc : o.allocOk s.allocCnt = true)
    (hbus : isrc &&& c.BUS_ERR ≠ 0) :
    ∃ f : can_frame,
      (sunxi_can_err c o isrc status s).2.delivered = s.delivered ++ [f] ∧
      f.data 2 &&& (CAN_ERR_PROT_BIT ||| CAN_ERR_PROT_FORM ||| CAN_ERR_PROT_STUFF) =
        (if o.rd Reg.STA (s.cnt Reg.STA) &&& c.BIT_ERR ≠ 0 then CAN_ERR_PROT_BIT
         else if o.rd Reg.STA (s.cnt Reg.STA) &&& c.FORM_ERR ≠ 0 then CAN_ERR_PROT_FORM
         else if o.rd Reg.STA (s.cnt Reg.STA) &&& c.STUFF_ERR ≠ 0 then CAN_ERR_PROT_STUFF
         else CAN_ERR_PROT_UNSPEC) ∧
      ((o.rd Reg.STA (s.cnt Reg.STA) &&& c.BIT_ERR = 0 ∧
        o.rd Reg.STA (s.cnt Reg.STA) &&& c.FORM_ERR = 0 ∧
        o.rd Reg.STA (s.cnt Reg.STA) &&& c.STUFF_ERR = 0) →
        f.data 3 = ((o.rd Reg.STA (s.cnt Reg.STA) &&& c.ERR_SEG_CODE) >>> 16) % 256) := by
  rw [sunxi_can_err_ok c o isrc status s halloc]
  dsimp only
  unfold err_branches
  set x0 : ErrCtx :=
    { dev := { s with allocCnt := s.allocCnt + 1 }, cf := mk_err_frame,
      state := s.canState } with hx0
  obtain ⟨_, _, o3, o4, _, _, _, o8, o9, _⟩ := err_overrun_pres c isrc x0
  set x1 := err_overrun c isrc x0 with hx1
  obtain ⟨_, w2, w3, _, _, w6, w7, _⟩ := err_warning_pres c isrc status x1
  set x2 := err_warning c isrc status x1 with hx2
  have hd2 : x2.cf.data 2 = 0 := by
    rw [w6, o8, hx0]
    rfl
  have hsta : rdVal o Reg.STA x2.dev = o.rd Reg.STA (s.cnt Reg.STA) := by
    simp only [rdVal]
    rw [w2, o3, hx0]
  obtain ⟨f2eq, f3eq⟩ := err_buserr_fire c o isrc x2 hbus hd2
  rw [hsta] at f2eq f3eq
  obtain ⟨_, _, _, b4, _, _, _, _⟩ := err_buserr_pres c o isrc x2
  set x3 := err_buserr c o isrc x2 with hx3
  obtain ⟨pdev, pcf⟩ := err_passive_dev c isrc status x3
  set x4 := err_passive_branch c isrc status x3 with hx4
  obtain ⟨_, _, _, a4, _, _, _, a8, a9, _⟩ := err_arblost_pres c o isrc x4
  set x5 := err_arblost c o isrc x4 with hx5
  obtain ⟨s2, s3, _, sdel⟩ := err_statechange_data23 o x5
  refine ⟨(err_statechange o x5).cf, ?_, ?_, ?_⟩
  · simp only [err_commit]
    rw [sdel, a4, pdev, b4, w3, o4, hx0]
  · rw [s2, a8, pcf, f2eq]
  · intro hz
    rw [s3, a9, pcf]
    exact f3eq hz

/-- Witness for C8: a captured error code with both the bit-error and the
form-error condition indicated yields the bit-error subtype only. -/
theorem C8_buserr_subtype_witness :
    ∃ f : can_frame,
      (sunxi_can_err exConsts oEccBitForm 0x80 0 initSt).2.delivered =
        initSt.delivered ++ [f] ∧
      f.data 2 &&& (CAN_ERR_PROT_BIT ||| CAN_ERR_PROT_FORM ||| CAN_ERR_PROT_STUFF) =
        (if oEccBitForm.rd Reg.STA (initSt.cnt Reg.STA) &&& exConsts.BIT_ERR ≠ 0 then
          CAN_ERR_PROT_BIT
         else if oEccBitForm.rd Reg.STA (initSt.cnt Reg.STA) &&& exConsts.FORM_ERR ≠ 0 then
          CAN_ERR_PROT_FORM
         else if oEccBitForm.rd Reg.STA (initSt.cnt Reg.STA) &&& exConsts.STUFF_ERR ≠ 0 then
          CAN_ERR_PROT_STUFF
         else CAN_ERR_PROT_UNSPEC) ∧
      ((oEccBitForm.rd Reg.STA (initSt.cnt Reg.STA) &&& exConsts.BIT_ERR = 0 ∧
        oEccBitForm.rd Reg.STA (initSt.cnt Reg.STA) &&& exConsts.FORM_ERR = 0 ∧
        oEccBitForm.rd Reg.STA (initSt.cnt Reg.STA) &&& exConsts.STUFF_ERR = 0) →
        f.data 3 = ((oEccBitForm.rd Reg.STA (initSt.cnt Reg.STA) &&&
          exConsts.ERR_SEG_CODE) >>> 16) % 256) :=
  C8_buserr_subtype exConsts oEccBitForm 0x80 0 initSt rfl (by decide)

theorem set_reset_mode_loop_timeout (c : Consts) (o : Oracle) (fuel : Nat) :
    ∀ status s, (∀ k, o.rd Reg.MSEL k &&& c.RESET_MODE = 0) →
      status &&& c.RESET_MODE = 0 →
      (set_reset_mode_loop c o fuel status s).canState = s.canState ∧
      (set_reset_mode_loop c o fuel status s).delays = s.delays + fuel := by
  induction fuel with
  | zero => exact fun status s h hs => ⟨rfl, rfl⟩
  | succ n ih =>
    intro status s h hs
    unfold set_reset_mode_loop
    rw [if_neg (by simp [hs])]
    have hrec := ih (rdVal o Reg.MSEL (srm_step c o s)) (rdSt Reg.MSEL (srm_step c o s))
      h (h _)
    refine ⟨?_, ?_⟩
    · rw [hrec.1]
      rfl
    · rw [hrec.2]
      have hstep : (rdSt Reg.MSEL (srm_step c o s)).delays = s.delays + 1 := rfl
      omega

theorem set_normal_mode_loop_timeout (c : Consts) (o : Oracle) (fuel : Nat) :
    ∀ status s, (∀ k, (o.rd Reg.MSEL k % 256) &&& c.RESET_MODE ≠ 0) →
      status &&& c.RESET_MODE ≠ 0 →
      (set_normal_mode_loop c o fuel status s).canState = s.canState ∧
      (set_normal_mode_loop c o fuel status s).delays = s.delays + fuel := by
  induction fuel with
  | zero => exact fun status s h hs => ⟨rfl, rfl⟩
  | succ n ih =>
    intro status s h hs
    unfold set_normal_mode_loop
    rw [if_neg hs]
    have hrec := ih (rdVal o Reg.MSEL (snm_step c o s) % 256)
      (rdSt Reg.MSEL (snm_step c o s)) h (h _)
    refine ⟨?_, ?_⟩
    · rw [hrec.1]
      rfl
    · rw [hrec.2]
      have hstep : (rdSt Reg.MSEL (snm_step c o s)).delays = s.delays + 1 := rfl
      omega

/-- Claim C7: against hardware whose mode-select register never shows the
target reset-bit value, `set_reset_mode` and `set_normal_mode` each run the
full poll bound — exactly 100 failed polls, each with its modeled
`udelay(10)` (the `delays` counter grows by exactly 100) — and then return
having only logged the failure: no crash, and the stored Controller Mode
field (`priv->can.state`) is left exactly as it was before the call. -/
theorem C7_mode_timeout :
    (∀ (c : Consts) (o : Oracle) (s : DevSt),
      (∀ k, o.rd Reg.MSEL k &&& c.RESET_MODE = 0) →
      (set_reset_mode c o s).canState = s.canState ∧
      (set_reset_mode c o s).delays = s.delays + 100) ∧
    (∀ (c : Consts) (o : Oracle) (s : DevSt),
      (∀ k, (o.rd Reg.MSEL k % 256) &&& c.RESET_MODE ≠ 0) →
      (set_normal_mode c o s).canState = s.canState ∧
      (set_normal_mode c o s).delays = s.delays + 100) := by
  refine ⟨fun c o s h => ?_, fun c o s h => ?_⟩
  · unfold set_reset_mode
    exact set_reset_mode_loop_timeout c o 100 (rdVal o Reg.MSEL s) (rdSt Reg.MSEL s) h (h _)
  · unfold set_normal_mode
    exact set_normal_mode_loop_timeout c o 100 (rdVal o Reg.MSEL s % 256)
      (rdSt Reg.MSEL s) h (h _)

/-- Witness for C7: a mock whose mode register always reads 0 (reset bit
never observed) for `set_reset_mode`, and always reads 1 (reset bit never
clears) for `set_normal_mode`. -/
theorem C7_mode_timeout_witness :
    ((set_reset_mode exConsts oZero initSt).canState = initSt.canState ∧
     (set_reset_mode exConsts oZero initSt).delays = initSt.delays + 100) ∧
    ((set_normal_mode exConsts oOne initSt).canState = initSt.canState ∧
     (set_normal_mode exConsts oOne initSt).delays = initSt.delays + 100) :=
  ⟨C7_mode_timeout.1 exConsts oZero initSt (fun _ => by simp only [oZero, exConsts]; decide),
   C7_mode_timeout.2 exConsts oOne initSt (fun _ => by simp only [oOne, exConsts]; decide)⟩

theorem writeBytes_lookup (b : Nat → Nat) (base : Nat) (f : Nat → Nat) :
    ∀ n j, writeBytes b base f n j =
      if base ≤ j ∧ j < base + n then f (j - base) else b j := by
  intro n
  induction n with
  | zero =>
    intro j
    rw [if_neg (by omega)]
    rfl
  | succ n ih =>
    intro j
    simp only [writeBytes, upd]
    by_cases h1 : j = base + n
    · rw [if_pos h1, if_pos (by omega)]
      subst h1
      congr 1
      omega
    · rw [if_neg h1, ih j]
      by_cases h2 : base ≤ j ∧ j < base + n
      · rw [if_pos h2, if_pos (by omega)]
      · rw [if_neg h2, if_neg (by omega)]

theorem xmit_store_std (bufs data : Nat → Nat) (t v1 v2 dlc : Nat) :
    writeBytes (upd (upd (upd bufs 0 t) 1 v1) 2 v2) 3 data dlc 0 = t ∧
    writeBytes (upd (upd (upd bufs 0 t) 1 v1) 2 v2) 3 data dlc 1 = v1 ∧
    writeBytes (upd (upd (upd bufs 0 t) 1 v1) 2 v2) 3 data dlc 2 = v2 ∧
    ∀ i, i < dlc → writeBytes (upd (upd (upd bufs 0 t) 1 v1) 2 v2) 3 data dlc (3 + i) = data i := by
  refine ⟨?_, ?_, ?_, ?_⟩
  · rw [writeBytes_lookup, if_neg (by omega)]
    simp [upd]
  · rw [writeBytes_lookup, if_neg (by omega)]
    simp [upd]
  · rw [writeBytes_lookup, if_neg (by omega)]
    simp [upd]
  · intro i hi
    rw [writeBytes_lookup, if_pos (by omega)]
    congr 1
    omega

theorem xmit_store_ext (bufs data : Nat → Nat) (t v1 v2 v3 v4 dlc : Nat) :
    writeBytes (upd (upd (upd (upd (upd bufs 0 t) 1 v1) 2 v2) 3 v3) 4 v4) 5 data dlc 0 = t ∧
    writeBytes (upd (upd (upd (upd (upd bufs 0 t) 1 v1) 2 v2) 3 v3) 4 v4) 5 data dlc 1 = v1 ∧
    writeBytes (upd (upd (upd (upd (upd bufs 0 t) 1 v1) 2 v2) 3 v3) 4 v4) 5 data dlc 2 = v2 ∧
    writeBytes (upd (upd (upd (upd (upd bufs 0 t) 1 v1) 2 v2) 3 v3) 4 v4) 5 data dlc 3 = v3 ∧
    writeBytes (upd (upd (upd (upd (upd bufs 0 t) 1 v1) 2 v2) 3 v3) 4 v4) 5 data dlc 4 = v4 ∧
    ∀ i, i < dlc →
      writeBytes (upd (upd (upd (upd (upd bufs 0 t) 1 v1) 2 v2) 3 v3) 4 v4) 5 data dlc (5 + i) =
        data i := by
  refine ⟨?_, ?_, ?_, ?_, ?_, ?_⟩
  · rw [writeBytes_lookup, if_neg (by omega)]
    simp [upd]
  · rw [writeBytes_lookup, if_neg (by omega)]
    simp [upd]
  · rw [writeBytes_lookup, if_neg (by omega)]
    simp [upd]
  · rw [writeBytes_lookup, if_neg (by omega)]
    simp [upd]
  · rw [writeBytes_lookup, if_neg (by omega)]
    simp [upd]
  · intro i hi
    rw [writeBytes_lookup, if_pos (by omega)]
    congr 1
    omega

theorem std_reconstruct (T id : Nat) (hT : T % 1073741824 = 0) (hTb : T ≤ 3221225472)
    (hid : id ≤ 0x7FF) :
    w32 ((0xFF &&& ((T + id) >>> 3)) <<< 3) |||
      (((((T + id) &&& 0x7) <<< 5) >>> 5) &&& 0x7) = id := by
  have e1 : 0xFF &&& ((T + id) >>> 3) = id / 8 := by
    rw [Nat.and_comm, mask255, Nat.shiftRight_eq_div_pow]
    norm_num
    omega
  have e2 : (T + id) &&& 0x7 = id % 8 := by
    rw [mask7]
    omega
  rw [e1, e2]
  simp only [Nat.shiftLeft_eq, Nat.shiftRight_eq_div_pow]
  have e3 : id % 8 * 2 ^ 5 / 2 ^ 5 = id % 8 := by
    norm_num
  rw [e3, mask7]
  have e4 : w32 (id / 8 * 2 ^ 3) = id / 8 * 2 ^ 3 := by
    unfold w32
    norm_num
    omega
  rw [e4]
  rw [or_eq_add_pow 3 (id / 8 * 2 ^ 3) (id % 8 % 8) (Nat.mul_mod_left _ _) (by norm_num; omega)]
  norm_num
  omega

theorem ext_reconstruct (T id : Nat) (hT : T % 1073741824 = 0) (hTb : T ≤ 3221225472)
    (hid : id ≤ 0x1FFFFFFF) :
    w32 ((0xFF &&& ((T + id) >>> 21)) <<< 21) ||| w32 ((0xFF &&& ((T + id) >>> 13)) <<< 13) |||
      w32 ((0xFF &&& ((T + id) >>> 5)) <<< 5) |||
      (((((T + id) &&& 0x1F) <<< 3) >>> 3) &&& 0x1F) = id := by
  have e1 : 0xFF &&& ((T + id) >>> 21) = id / 2097152 := by
    rw [Nat.and_comm, mask255, Nat.shiftRight_eq_div_pow]
    norm_num
    omega
  have e2 : 0xFF &&& ((T + id) >>> 13) = id / 8192 % 256 := by
    rw [Nat.and_comm, mask255, Nat.shiftRight_eq_div_pow]
    norm_num
    omega
  have e3 : 0xFF &&& ((T + id) >>> 5) = id / 32 % 256 := by
    rw [Nat.and_comm, mask255, Nat.shiftRight_eq_div_pow]
    norm_num
    omega
  have e4 : (T + id) &&& 0x1F = id % 32 := by
    rw [mask31]
    omega
  rw [e1, e2, e3, e4]
  simp only [Nat.shiftLeft_eq, Nat.shiftRight_eq_div_pow]
  have e5 : id % 32 * 2 ^ 3 / 2 ^ 3 = id % 32 := by
    norm_num
  rw [e5, mask31]
  have w1 : w32 (id / 2097152 * 2 ^ 21) = id / 2097152 * 2 ^ 21 := by
    unfold w32
    norm_num
    omega
  have w2 : w32 (id / 8192 % 256 * 2 ^ 13) = id / 8192 % 256 * 2 ^ 13 := by
    unfold w32
    norm_num
    omega
  have w3 : w32 (id / 32 % 256 * 2 ^ 5) = id / 32 % 256 * 2 ^ 5 := by
    unfold w32
    norm_num
    omega
  rw [w1, w2, w3]
  rw [or_eq_add_pow 21 (id / 2097152 * 2 ^ 21) (id / 8192 % 256 * 2 ^ 13)
    (Nat.mul_mod_left _ _) (by norm_num; omega)]
  rw [or_eq_add_pow 13 (id / 2097152 * 2 ^ 21 + id / 8192 % 256 * 2 ^ 13)
    (id / 32 % 256 * 2 ^ 5) (by norm_num; omega) (by norm_num; omega)]
  rw [or_eq_add_pow 5
    (id / 2097152 * 2 ^ 21 + id / 8192 % 256 * 2 ^ 13 + id / 32 % 256 * 2 ^ 5)
    (id % 32 % 32) (by norm_num; omega) (by norm_num; omega)]
  norm_num
  omega

/-- Claim C1 (amended): encoding a logical frame through the transmit
buffer-register writes and decoding those registers through the receive path
reproduces the identifier, the extended/RTR flags and the DLC for every
frame in range (standard ids up to `0x7FF`, extended up to `0x1FFFFFFF`,
dlc at most 8); the data bytes are reproduced for non-RTR frames, while for
RTR frames the decode path skips the data reads and the decoded bytes are
zero regardless of what was encoded. -/
theorem C1_frame_roundtrip (ext rtr : Bool) (id dlc : Nat) (data : Nat → Nat) (bufs : Nat → Nat)
    (hdlc : dlc ≤ 8)
    (hid : id ≤ if ext then 0x1FFFFFFF else 0x7FF)
    (hdata : ∀ i, i < dlc → data i < 256) :
    (sunxi_can_rx_decode (sunxi_can_start_xmit_bufs
        { can_id := (id ||| (if ext then CAN_EFF_FLAG else 0)) |||
            (if rtr then CAN_RTR_FLAG else 0),
          can_dlc := dlc, data := data } bufs)).can_id =
      (id ||| (if ext then CAN_EFF_FLAG else 0)) ||| (if rtr then CAN_RTR_FLAG else 0) ∧
    (sunxi_can_rx_decode (sunxi_can_start_xmit_bufs
        { can_id := (id ||| (if ext then CAN_EFF_FLAG else 0)) |||
            (if rtr then CAN_RTR_FLAG else 0),
          can_dlc := dlc, data := data } bufs)).can_dlc = dlc ∧
    (∀ i, i < dlc →
      (sunxi_can_rx_decode (sunxi_can_start_xmit_bufs
          { can_id := (id ||| (if ext then CAN_EFF_FLAG else 0)) |||
              (if rtr then CAN_RTR_FLAG else 0),
            can_dlc := dlc, data := data } bufs)).data i = if rtr then 0 else data i) := by
  cases ext with
  | false =>
    simp only [Bool.false_eq_true, if_false, Nat.or_zero] at hid ⊢
    cases rtr with
    | false =>
      simp only [Bool.false_eq_true, if_false, Nat.or_zero]
      have hconde : id &&& CAN_EFF_FLAG = 0 := by
        rw [show CAN_EFF_FLAG = 2 ^ 31 from by norm_num [CAN_EFF_FLAG]]
        exact and_two_pow_of_lt (by norm_num; omega)
      simp only [sunxi_can_start_xmit_bufs]
      rw [if_neg (by simp [hconde])]
      have hT0 : ((id >>> 30) <<< 6) ||| dlc = dlc := by
        have h30 : id >>> 30 = 0 := by
          rw [Nat.shiftRight_eq_div_pow]
          norm_num
          omega
        rw [h30]
        simp
      rw [hT0]
      obtain ⟨r0, r1, r2, rdat⟩ := xmit_store_std bufs data dlc
        (0xFF &&& (id >>> 3)) ((id &&& 0x7) <<< 5) dlc
      simp only [sunxi_can_rx_decode]
      rw [r0]
      have hfi : dlc % 256 = dlc := by omega
      rw [hfi]
      have hdlc2 : get_can_dlc (dlc &&& 0x0F) = dlc := by
        rw [mask15]
        unfold get_can_dlc
        omega
      rw [hdlc2]
      have hb7 : dlc >>> 7 = 0 := by
        rw [Nat.shiftRight_eq_div_pow]
        norm_num
        omega
      rw [hb7, if_neg (by simp)]
      have hb6 : (dlc >>> 6) &&& 0x1 = 0 := by
        rw [Nat.shiftRight_eq_div_pow, mask1]
        norm_num
        omega
      rw [hb6, if_neg (by simp)]
      rw [r1, r2]
      have hrec := std_reconstruct 0 id (by norm_num) (by norm_num) hid
      simp only [Nat.zero_add] at hrec
      refine ⟨hrec, rfl, ?_⟩
      intro i hi
      show (if i < dlc then _ % 256 else 0) = data i
      rw [if_pos hi, rdat i hi]
      exact Nat.mod_eq_of_lt (hdata i hi)
    | true =>
      simp only [eq_self_iff_true, if_true, Nat.or_zero]
      have hor : id ||| CAN_RTR_FLAG = 1073741824 + id := by
        rw [show CAN_RTR_FLAG = 2 ^ 30 from by norm_num [CAN_RTR_FLAG], Nat.or_comm]
        rw [or_eq_add_pow 30 (2 ^ 30) id (Nat.mod_self _) (by norm_num; omega)]
        norm_num
      rw [hor]
      have hconde : (1073741824 + id) &&& CAN_EFF_FLAG = 0 := by
        rw [show CAN_EFF_FLAG = 2 ^ 31 from by norm_num [CAN_EFF_FLAG]]
        exact and_two_pow_of_lt (by norm_num; omega)
      simp only [sunxi_can_start_xmit_bufs]
      rw [if_neg (by simp [hconde])]
      have hT0 : (((1073741824 + id) >>> 30) <<< 6) ||| dlc = 64 + dlc := by
        have h30 : (1073741824 + id) >>> 30 = 1 := by
          rw [Nat.shiftRight_eq_div_pow]
          norm_num
          omega
        rw [h30, show ((1 : Nat) <<< 6) = 64 from rfl]
        rw [or_eq_add_pow 6 64 dlc (by norm_num) (by norm_num; omega)]
      rw [hT0]
      obtain ⟨r0, r1, r2, rdat⟩ := xmit_store_std bufs data (64 + dlc)
        (0xFF &&& ((1073741824 + id) >>> 3)) (((1073741824 + id) &&& 0x7) <<< 5) dlc
      simp only [sunxi_can_rx_decode]
      rw [r0]
      have hfi : (64 + dlc) % 256 = 64 + dlc := by omega
      rw [hfi]
      have hdlc2 : get_can_dlc ((64 + dlc) &&& 0x0F) = dlc := by
        rw [mask15]
        unfold get_can_dlc
        omega
      rw [hdlc2]
      have hb7 : (64 + dlc) >>> 7 = 0 := by
        rw [Nat.shiftRight_eq_div_pow]
        norm_num
        omega
      rw [hb7, if_neg (by simp)]
      have hb6 : ((64 + dlc) >>> 6) &&& 0x1 = 1 := by
        rw [Nat.shiftRight_eq_div_pow, mask1]
        norm_num
        omega
      rw [hb6, if_pos (by norm_num)]
      rw [r1, r2]
      have hrec := std_reconstruct 1073741824 id (by norm_num) (by norm_num) hid
      refine ⟨?_, rfl, fun i hi => rfl⟩
      show _ ||| CAN_RTR_FLAG = 1073741824 + id
      rw [hrec]
      exact hor
  | true =>
    simp only [eq_self_iff_true, if_true] at hid ⊢
    cases rtr with
    | false =>
      simp only [Bool.false_eq_true, if_false, Nat.or_zero]
      have hor : id ||| CAN_EFF_FLAG = 2147483648 + id := by
        rw [show CAN_EFF_FLAG = 2 ^ 31 from by norm_num [CAN_EFF_FLAG], Nat.or_comm]
        rw [or_eq_add_pow 31 (2 ^ 31) id (Nat.mod_self _) (by norm_num; omega)]
        norm_num
      rw [hor]
      have hand : (2147483648 + id) &&& CAN_EFF_FLAG = 2 ^ 31 := by
        rw [show CAN_EFF_FLAG = 2 ^ 31 from by norm_num [CAN_EFF_FLAG]]
        rw [show (2147483648 : Nat) + id = 2 ^ 31 + id from by norm_num]
        exact add_two_pow_and_self (by norm_num; omega)
      simp only [sunxi_can_start_xmit_bufs]
      rw [if_pos (by rw [hand]; norm_num)]
      have hT0 : (((2147483648 + id) >>> 30) <<< 6) ||| dlc = 128 + dlc := by
        have h30 : (2147483648 + id) >>> 30 = 2 := by
          rw [Nat.shiftRight_eq_div_pow]
          norm_num
          omega
        rw [h30, show ((2 : Nat) <<< 6) = 128 from rfl]
        rw [or_eq_add_pow 7 128 dlc (by norm_num) (by norm_num; omega)]
      rw [hT0]
      obtain ⟨r0, r1, r2, r3, r4, rdat⟩ := xmit_store_ext bufs data (128 + dlc)
        (0xFF &&& ((2147483648 + id) >>> 21)) (0xFF &&& ((2147483648 + id) >>> 13))
        (0xFF &&& ((2147483648 + id) >>> 5)) (((2147483648 + id) &&& 0x1F) <<< 3) dlc
      simp only [sunxi_can_rx_decode]
      rw [r0]
      have hfi : (128 + dlc) % 256 = 128 + dlc := by omega
      rw [hfi]
      have hdlc2 : get_can_dlc ((128 + dlc) &&& 0x0F) = dlc := by
        rw [mask15]
        unfold get_can_dlc
        omega
      rw [hdlc2]
      have hb7 : (128 + dlc) >>> 7 = 1 := by
        rw [Nat.shiftRight_eq_div_pow]
        norm_num
        omega
      rw [hb7, if_pos (by norm_num)]
      have hb6 : ((128 + dlc) >>> 6) &&& 0x1 = 0 := by
        rw [Nat.shiftRight_eq_div_pow, mask1]
        norm_num
        omega
      rw [hb6, if_neg (by simp)]
      rw [r1, r2, r3, r4]
      have hrec := ext_reconstruct 2147483648 id (by norm_num) (by norm_num) hid
      refine ⟨?_, rfl, ?_⟩
      · show _ ||| CAN_EFF_FLAG = 2147483648 + id
        rw [hrec]
        exact hor
      · intro i hi
        show (if i < dlc then _ % 256 else 0) = data i
        rw [if_pos hi, rdat i hi]
        exact Nat.mod_eq_of_lt (hdata i hi)
    | true =>
      simp only [eq_self_iff_true, if_true]
      have hor : id ||| CAN_EFF_FLAG ||| CAN_RTR_FLAG = 3221225472 + id := by
        rw [show CAN_EFF_FLAG = 2 ^ 31 from by norm_num [CAN_EFF_FLAG],
          show CAN_RTR_FLAG = 2 ^ 30 from by norm_num [CAN_RTR_FLAG]]
        rw [Nat.or_assoc]
        rw [show (2 ^ 31 : Nat) ||| 2 ^ 30 = 2 ^ 31 + 2 ^ 30 from
          or_eq_add_pow 31 (2 ^ 31) (2 ^ 30) (Nat.mod_self _) (by norm_num)]
        rw [Nat.or_comm]
        rw [or_eq_add_pow 30 (2 ^ 31 + 2 ^ 30) id (by norm_num) (by norm_num; omega)]
        norm_num
      rw [hor]
      have hand : (3221225472 + id) &&& CAN_EFF_FLAG = 2 ^ 31 := by
        rw [show CAN_EFF_FLAG = 2 ^ 31 from by norm_num [CAN_EFF_FLAG]]
        rw [show (3221225472 : Nat) + id = 2 ^ 31 + (1073741824 + id) from by norm_num <;> omega]
        exact add_two_pow_and_self (by norm_num; omega)
      simp only [sunxi_can_start_xmit_bufs]
      rw [if_pos (by rw [hand]; norm_num)]
      have hT0 : (((3221225472 + id) >>> 30) <<< 6) ||| dlc = 192 + dlc := by
        have h30 : (3221225472 + id) >>> 30 = 3 := by
          rw [Nat.shiftRight_eq_div_pow]
          norm_num
          omega
        rw [h30, show ((3 : Nat) <<< 6) = 192 from rfl]
        rw [or_eq_add_pow 6 192 dlc (by norm_num) (by norm_num; omega)]
      rw [hT0]
      obtain ⟨r0, r1, r2, r3, r4, rdat⟩ := xmit_store_ext bufs data (192 + dlc)
        (0xFF &&& ((3221225472 + id) >>> 21)) (0xFF &&& ((3221225472 + id) >>> 13))
        (0xFF &&& ((3221225472 + id) >>> 5)) (((3221225472 + id) &&& 0x1F) <<< 3) dlc
      simp only [sunxi_can_rx_decode]
      rw [r0]
      have hfi : (192 + dlc) % 256 = 192 + dlc := by omega
      rw [hfi]
      have hdlc2 : get_can_dlc ((192 + dlc) &&& 0x0F) = dlc := by
        rw [mask15]
        unfold get_can_dlc
        omega
      rw [hdlc2]
      have hb7 : (192 + dlc) >>> 7 = 1 := by
        rw [Nat.shiftRight_eq_div_pow]
        norm_num
        omega
      rw [hb7, if_pos (by norm_num)]
      have hb6 : ((192 + dlc) >>> 6) &&& 0x1 = 1 := by
        rw [Nat.shiftRight_eq_div_pow, mask1]
        norm_num
        omega
      rw [hb6, if_pos (by norm_num)]
      rw [r1, r2, r3, r4]
      have hrec := ext_reconstruct 3221225472 id (by norm_num) (by norm_num) hid
      refine ⟨?_, rfl, fun i hi => rfl⟩
      show _ ||| CAN_EFF_FLAG ||| CAN_RTR_FLAG = 3221225472 + id
      rw [hrec]
      exact hor

/-- Counterexample to claim C1 as stated: a standard RTR frame in range
(id 5, dlc 1) with data byte 1 round-trips with its identifier, flags and
DLC intact, but the decoded data byte is 0, not 1 — the transmit path writes
the data bytes even for RTR frames while the receive path skips reading
them, so `data[0..dlc)` is not preserved for every frame in the claim's
range. -/
theorem C1_counterexample :
    (sunxi_can_rx_decode (sunxi_can_start_xmit_bufs
        { can_id := 5 ||| CAN_RTR_FLAG, can_dlc := 1, data := fun _ => 1 }
        (fun _ => 0))).data 0 = 0 ∧
    ({ can_id := 5 ||| CAN_RTR_FLAG, can_dlc := 1, data := fun _ => 1 } : can_frame).data 0 = 1 ∧
    (sunxi_can_rx_decode (sunxi_can_start_xmit_bufs
        { can_id := 5 ||| CAN_RTR_FLAG, can_dlc := 1, data := fun _ => 1 }
        (fun _ => 0))).can_id = 5 ||| CAN_RTR_FLAG ∧
    (sunxi_can_rx_decode (sunxi_can_start_xmit_bufs
        { can_id := 5 ||| CAN_RTR_FLAG, can_dlc := 1, data := fun _ => 1 }
        (fun _ => 0))).can_dlc = 1 :=
  ⟨by decide, by decide, by decide, by decide⟩

/-- Witness for C1 at a concrete standard frame: id `0x123`, dlc 2,
data bytes 10 and 11, over a buffer store previously holding 7 everywhere. -/
theorem C1_frame_roundtrip_witness :
    (sunxi_can_rx_decode (sunxi_can_start_xmit_bufs
        { can_id := (0x123 ||| (if false then CAN_EFF_FLAG else 0)) |||
            (if false then CAN_RTR_FLAG else 0),
          can_dlc := 2, data := fun i => 10 + i } (fun _ => 7))).can_id =
      (0x123 ||| (if false then CAN_EFF_FLAG else 0)) ||| (if false then CAN_RTR_FLAG else 0) ∧
    (sunxi_can_rx_decode (sunxi_can_start_xmit_bufs
        { can_id := (0x123 ||| (if false then CAN_EFF_FLAG else 0)) |||
            (if false then CAN_RTR_FLAG else 0),
          can_dlc := 2, data := fun i => 10 + i } (fun _ => 7))).can_dlc = 2 ∧
    (∀ i, i < 2 →
      (sunxi_can_rx_decode (sunxi_can_start_xmit_bufs
          { can_id := (0x123 ||| (if false then CAN_EFF_FLAG else 0)) |||
              (if false then CAN_RTR_FLAG else 0),
            can_dlc := 2, data := fun i => 10 + i } (fun _ => 7))).data i =
        if false then 0 else 10 + i) :=
  C1_frame_roundtrip false false 0x123 2 (fun i => 10 + i) (fun _ => 7)
    (by decide) (by decide) (by decide)

theorem is_absent_false (o : Oracle) (s : DevSt)
    (h : o.rd Reg.MSEL (s.cnt Reg.MSEL) &&& 0xFF ≠ 0xFF) :
    sunxi_can_is_absent o s = false := by
  unfold sunxi_can_is_absent rdVal
  exact beq_eq_false_iff_ne.mpr h

theorem sunxi_can_err_fst (c : Consts) (o : Oracle) (isrc status : Nat) (s : DevSt) :
    (sunxi_can_err c o isrc status s).1 = o.allocOk s.allocCnt := by
  unfold sunxi_can_err
  split_ifs with h <;> simp [h]

theorem sunxi_can_err_fail (c : Consts) (o : Oracle) (isrc status : Nat) (s : DevSt)
    (h : o.allocOk s.allocCnt = false) :
    sunxi_can_err c o isrc status s = (false, { s with allocCnt := s.allocCnt + 1 }) := by
  unfold sunxi_can_err
  rw [if_neg (by simp [h])]

theorem sunxi_can_rx_fail (c : Consts) (o : Oracle) (s : DevSt)
    (h : o.allocOk s.allocCnt = false) :
    sunxi_can_rx c o s = { s with allocCnt := s.allocCnt + 1 } := by
  unfold sunxi_can_rx
  rw [if_neg (by simp [h])]

theorem drain_done (c : Consts) (o : Oracle) (fuel status : Nat) (s : DevSt)
    (h : status &&& c.RBUF_RDY = 0) :
    sunxi_can_rx_drain c o fuel status s = DrainRes.done status s := by
  cases fuel with
  | zero =>
    unfold sunxi_can_rx_drain
    rw [if_neg (by simp [h])]
  | succ n =>
    unfold sunxi_can_rx_drain
    rw [if_neg (by simp [h])]

theorem is_absent_false_all (o : Oracle)
    (hM : ∀ k, o.rd Reg.MSEL k &&& 0xFF ≠ 0xFF) :
    ∀ s, sunxi_can_is_absent o s = false :=
  fun s => is_absent_false o s (hM _)

theorem drain_no_absent (c : Consts) (o : Oracle)
    (hM : ∀ k, o.rd Reg.MSEL k &&& 0xFF ≠ 0xFF) :
    ∀ fuel status s s5, sunxi_can_rx_drain c o fuel status s ≠ DrainRes.absent s5 := by
  intro fuel
  induction fuel with
  | zero =>
    intro status s s5
    unfold sunxi_can_rx_drain
    split_ifs <;> simp
  | succ n ih =>
    intro status s s5
    unfold sunxi_can_rx_drain
    split_ifs with h1
    · simp only [is_absent_false_all o hM, Bool.false_eq_true, if_false]
      exact ih _ _ _
    · simp

theorem drain_dispatch_done {A : Type} (dv : A) (ab : DevSt → A) (dn : Nat → DevSt → A)
    (st : Nat) (s : DevSt) :
    drain_dispatch dv ab dn (DrainRes.done st s) = dn st s := rfl

theorem drain_dispatch_absent {A : Type} (dv : A) (ab : DevSt → A) (dn : Nat → DevSt → A)
    (s : DevSt) :
    drain_dispatch dv ab dn (DrainRes.absent s) = ab s := rfl

theorem loop_runs_to_bound (c : Consts) (o : Oracle) (rxFuel : Nat)
    (hI : ∀ k, o.rd Reg.INT k % 256 ≠ 0)
    (hM : ∀ k, o.rd Reg.MSEL k &&& 0xFF ≠ 0xFF)
    (hA : ∀ k, o.allocOk k = true)
    (hS : ∀ k, o.rd Reg.STA k % 256 &&& c.RBUF_RDY = 0) :
    ∀ fuel n s, n ≤ SUNXI_CAN_MAX_IRQ → SUNXI_CAN_MAX_IRQ - n < fuel →
      ∃ s', sunxi_can_interrupt_loop c o rxFuel fuel n s =
        some (IrqRet.Handled, SUNXI_CAN_MAX_IRQ, s') := by
  intro fuel
  induction fuel with
  | zero =>
    intro n s hn hf
    omega
  | succ fuel ih =>
    intro n s hn hf
    by_cases hlt : n < SUNXI_CAN_MAX_IRQ
    · simp only [sunxi_can_interrupt_loop]
      rw [if_pos (And.intro (show rdVal o Reg.INT s % 256 ≠ 0 from hI _) hlt)]
      simp only [is_absent_false_all o hM, Bool.false_eq_true, if_false]
      have hst : rdVal o Reg.STA (rdSt Reg.INT s) % 256 &&& c.RBUF_RDY = 0 := hS _
      by_cases htb : rdVal o Reg.INT s % 256 &&& c.TBUF_VLD ≠ 0
      · rw [if_pos htb]
        by_cases hrb : rdVal o Reg.INT s % 256 &&& c.RBUF_VLD ≠ 0
        · rw [if_pos hrb, drain_done c o rxFuel _ _ hst]
          simp only [drain_dispatch_done]
          by_cases herr : rdVal o Reg.INT s % 256 &&&
              (c.DATA_ORUNI ||| c.ERR_WRN ||| c.BUS_ERR ||| c.ERR_PASSIVE ||| c.ARB_LOST) ≠ 0
          · rw [if_pos herr]
            simp only [sunxi_can_err_fst, hA, if_true, eq_self_iff_true]
            exact ih (n + 1) _ (by omega) (by omega)
          · rw [if_neg herr]
            exact ih (n + 1) _ (by omega) (by omega)
        · rw [if_neg hrb]
          simp only [drain_dispatch_done]
          by_cases herr : rdVal o Reg.INT s % 256 &&&
              (c.DATA_ORUNI ||| c.ERR_WRN ||| c.BUS_ERR ||| c.ERR_PASSIVE ||| c.ARB_LOST) ≠ 0
          · rw [if_pos herr]
            simp only [sunxi_can_err_fst, hA, if_true, eq_self_iff_true]
            exact ih (n + 1) _ (by omega) (by omega)
          · rw [if_neg herr]
            exact ih (n + 1) _ (by omega) (by omega)
      · rw [if_neg htb]
        by_cases hrb : rdVal o Reg.INT s % 256 &&& c.RBUF_VLD ≠ 0
        · rw [if_pos hrb, drain_done c o rxFuel _ _ hst]
          simp only [drain_dispatch_done]
          by_cases herr : rdVal o Reg.INT s % 256 &&&
              (c.DATA_ORUNI ||| c.ERR_WRN ||| c.BUS_ERR ||| c.ERR_PASSIVE ||| c.ARB_LOST) ≠ 0
          · rw [if_pos herr]
            simp only [sunxi_can_err_fst, hA, if_true, eq_self_iff_true]
            exact ih (n + 1) _ (by omega) (by omega)
          · rw [if_neg herr]
            exact ih (n + 1) _ (by omega) (by omega)
        · rw [if_neg hrb]
          simp only [drain_dispatch_done]
          by_cases herr : rdVal o Reg.INT s % 256 &&&
              (c.DATA_ORUNI ||| c.ERR_WRN ||| c.BUS_ERR ||| c.ERR_PASSIVE ||| c.ARB_LOST) ≠ 0
          · rw [if_pos herr]
            simp only [sunxi_can_err_fst, hA, if_true, eq_self_iff_true]
            exact ih (n + 1) _ (by omega) (by omega)
          · rw [if_neg herr]
            exact ih (n + 1) _ (by omega) (by omega)
    · have hn20 : n = SUNXI_CAN_MAX_IRQ := by omega
      subst hn20
      simp only [sunxi_can_interrupt_loop]
      rw [if_neg (fun hc => absurd hc.2 (lt_irrefl _))]
      rw [if_pos (by decide : SUNXI_CAN_MAX_IRQ ≠ 0)]
      exact ⟨_, rfl⟩

theorem dispatch_inv {P : Prop} (n1 : Nat) (r : IrqRet) (n' : Nat) (s'' : DevSt)
    (dn : Nat → DevSt → Option (IrqRet × Nat × DevSt)) (dr : DrainRes)
    (hab : ∀ s5, dr ≠ DrainRes.absent s5)
    (hdn : ∀ st s5, dn st s5 = some (r, n', s'') → P)
    (h : drain_dispatch none (fun s5 => some (IrqRet.NotServiced, n1, s5)) dn dr =
         some (r, n', s'')) : P := by
  cases dr with
  | diverge => simp [drain_dispatch] at h
  | absent s5 => exact absurd rfl (hab s5)
  | done st s5 =>
    rw [drain_dispatch_done] at h
    exact hdn st s5 h

theorem loop_iter_tail (c : Consts) (o : Oracle) (rxFuel fuel n : Nat)
    (ih : ∀ n s r n' s'', sunxi_can_interrupt_loop c o rxFuel fuel n s = some (r, n', s'') →
      (r = IrqRet.Handled ↔ n' ≠ 0) ∧ n ≤ n' ∧
        (rdVal o Reg.INT s % 256 ≠ 0 → n < SUNXI_CAN_MAX_IRQ → n + 1 ≤ n'))
    (b : Bool) (sX sY : DevSt) (r : IrqRet) (n' : Nat) (s'' : DevSt)
    (h : (if b = true then sunxi_can_interrupt_loop c o rxFuel fuel (n + 1) sX
          else some (if n + 1 ≠ 0 then IrqRet.Handled else IrqRet.NotServiced, n + 1, sY)) =
         some (r, n', s'')) :
    (r = IrqRet.Handled ↔ n' ≠ 0) ∧ n + 1 ≤ n' := by
  cases b with
  | true =>
    rw [if_pos rfl] at h
    obtain ⟨hiff, hle, _⟩ := ih _ _ _ _ _ h
    exact ⟨hiff, hle⟩
  | false =>
    rw [if_neg (by simp)] at h
    rw [if_pos (show n + 1 ≠ 0 from Nat.succ_ne_zero n)] at h
    simp only [Option.some.injEq, Prod.mk.injEq] at h
    obtain ⟨rfl, rfl, rfl⟩ := h
    exact ⟨by simp, by omega⟩

theorem loop_return_inv (c : Consts) (o : Oracle) (rxFuel : Nat)
    (hM : ∀ k, o.rd Reg.MSEL k &&& 0xFF ≠ 0xFF) :
    ∀ fuel n s r n' s'', sunxi_can_interrupt_loop c o rxFuel fuel n s = some (r, n', s'') →
      (r = IrqRet.Handled ↔ n' ≠ 0) ∧ n ≤ n' ∧
        (rdVal o Reg.INT s % 256 ≠ 0 → n < SUNXI_CAN_MAX_IRQ → n + 1 ≤ n') := by
  intro fuel
  induction fuel with
  | zero =>
    intro n s r n' s'' h
    simp [sunxi_can_interrupt_loop] at h
  | succ fuel ih =>
    intro n s r n' s'' h
    simp only [sunxi_can_interrupt_loop] at h
    by_cases hc : rdVal o Reg.INT s % 256 ≠ 0 ∧ n < SUNXI_CAN_MAX_IRQ
    · rw [if_pos hc] at h
      simp only [is_absent_false_all o hM, Bool.false_eq_true, if_false] at h
      refine dispatch_inv _ _ _ _ _ _ ?_ ?_ h
      · intro s5
        by_cases hrb : rdVal o Reg.INT s % 256 &&& c.RBUF_VLD ≠ 0
        · rw [if_pos hrb]
          exact drain_no_absent c o hM _ _ _ _
        · rw [if_neg hrb]
          simp
      · intro st1 s5 h'
        simp only [] at h'
        have t := loop_iter_tail c o rxFuel fuel n ih _ _ _ _ _ _ h'
        exact ⟨t.1, by omega, fun _ _ => t.2⟩
    · rw [if_neg hc] at h
      by_cases hn0 : n ≠ 0
      · rw [if_pos hn0] at h
        simp only [Option.some.injEq, Prod.mk.injEq] at h
        obtain ⟨rfl, rfl, rfl⟩ := h
        exact ⟨by simp [hn0], le_refl n, fun h1 h2 => absurd ⟨h1, h2⟩ hc⟩
      · rw [if_neg hn0] at h
        simp only [Option.some.injEq, Prod.mk.injEq] at h
        obtain ⟨rfl, rfl, rfl⟩ := h
        exact ⟨by simp [hn0], le_refl n, fun h1 h2 => absurd ⟨h1, h2⟩ hc⟩

/-- C3: interrupt dispatch termination and return value.  Amended: with the
hardware never absent, (a) if the interrupt-source register never reads zero,
every allocation succeeds, and the status register never reports
receive-pending, the dispatch loop executes exactly `SUNXI_CAN_MAX_IRQ` (20)
iterations and terminates (the extra premises are required: an error-frame
allocation failure breaks the loop early, and a persistently pending receive
status keeps the inner drain loop spinning); (b) whenever the handler
returns, the result is `IRQ_HANDLED` if and only if the first
interrupt-source read was nonzero. -/
theorem C3_interrupt_dispatch (c : Consts) (o : Oracle) (rxFuel : Nat) (s : DevSt)
    (hM : ∀ k, o.rd Reg.MSEL k &&& 0xFF ≠ 0xFF) :
    ((∀ k, o.rd Reg.INT k % 256 ≠ 0) → (∀ k, o.allocOk k = true) →
      (∀ k, o.rd Reg.STA k % 256 &&& c.RBUF_RDY = 0) →
      ∃ s', sunxi_can_interrupt c o rxFuel s =
        some (IrqRet.Handled, SUNXI_CAN_MAX_IRQ, s')) ∧
    (∀ r n' s'', sunxi_can_interrupt c o rxFuel s = some (r, n', s'') →
      (r = IrqRet.Handled ↔ rdVal o Reg.INT s % 256 ≠ 0)) := by
  constructor
  · intro hI hA hS
    exact loop_runs_to_bound c o rxFuel hI hM hA hS _ 0 s (by omega) (by decide)
  · intro r n' s'' h
    by_cases h0 : rdVal o Reg.INT s % 256 ≠ 0
    · obtain ⟨hiff, _, h1⟩ := loop_return_inv c o rxFuel hM _ _ _ _ _ _ h
      have hn' := h1 h0 (by decide)
      exact iff_of_true (hiff.mpr (by omega)) h0
    · unfold sunxi_can_interrupt at h
      simp only [sunxi_can_interrupt_loop] at h
      rw [if_neg (fun hcc => h0 hcc.1)] at h
      rw [if_neg (by decide : ¬(0 : Nat) ≠ 0)] at h
      simp only [Option.some.injEq, Prod.mk.injEq] at h
      obtain ⟨rfl, rfl, rfl⟩ := h
      simp [h0]

/-- C3 counterexample to the unamended claim: an oracle whose
interrupt-source register always reads 4 (the sample error-warning bit),
whose hardware-absent test never fires, but whose allocations fail, makes
the handler return after a single iteration rather than the configured 20:
the error-frame allocation failure breaks the dispatch loop. -/
theorem C3_counterexample :
    (∀ k, oEWAllocFail.rd Reg.INT k % 256 ≠ 0) ∧
    (∀ k, oEWAllocFail.rd Reg.MSEL k &&& 0xFF ≠ 0xFF) ∧
    (sunxi_can_interrupt exConsts oEWAllocFail 1 initSt).map
        (fun t => (t.1, t.2.1)) = some (IrqRet.Handled, 1) :=
  ⟨fun _ => by simp only [oEWAllocFail]; decide,
   fun _ => by simp only [oEWAllocFail]; decide, by decide⟩

/-- C3 witness: the amended theorem applied to the always-error-warning,
always-allocating oracle. -/
theorem C3_interrupt_dispatch_witness :
    (∀ k, oEWAllocOk.rd Reg.MSEL k &&& 0xFF ≠ 0xFF) ∧
    (((∀ k, oEWAllocOk.rd Reg.INT k % 256 ≠ 0) → (∀ k, oEWAllocOk.allocOk k = true) →
        (∀ k, oEWAllocOk.rd Reg.STA k % 256 &&& exConsts.RBUF_RDY = 0) →
        ∃ s', sunxi_can_interrupt exConsts oEWAllocOk 4 initSt =
          some (IrqRet.Handled, SUNXI_CAN_MAX_IRQ, s')) ∧
      (∀ r n' s'', sunxi_can_interrupt exConsts oEWAllocOk 4 initSt = some (r, n', s'') →
        (r = IrqRet.Handled ↔ rdVal oEWAllocOk Reg.INT initSt % 256 ≠ 0))) :=
  ⟨fun _ => by simp only [oEWAllocOk]; decide,
   C3_interrupt_dispatch exConsts oEWAllocOk 4 initSt
     (fun _ => by simp only [oEWAllocOk]; decide)⟩

/-- C4: resource-exhaustion containment.  Amended: a failed allocation never
crashes and never retries, but the two failure sites behave differently.
(a) When the diagnostic-error-frame allocation fails (`sunxi_can_err`
returning 0), the dispatch loop breaks: the handler returns `IRQ_HANDLED`
after that iteration and the remaining interrupt sources of the invocation
are skipped, with no register write, no statistics change, no state change
and no frame delivered by the failing step.  (b) When the receive-frame
allocation fails, only that frame is abandoned — `sunxi_can_rx` returns
with the device state untouched (in particular the receive buffer is not
released and no statistic is counted) — and the invocation continues with
the remaining interrupt sources, contrary to the claim. -/
theorem C4_alloc_failure (c : Consts) (o : Oracle) (rxFuel fuel n : Nat) (s : DevSt)
    (hM : ∀ k, o.rd Reg.MSEL k &&& 0xFF ≠ 0xFF) :
    (rdVal o Reg.INT s % 256 ≠ 0 → n < SUNXI_CAN_MAX_IRQ →
      rdVal o Reg.INT s % 256 &&& c.TBUF_VLD = 0 →
      rdVal o Reg.INT s % 256 &&& c.RBUF_VLD = 0 →
      rdVal o Reg.INT s % 256 &&&
        (c.DATA_ORUNI ||| c.ERR_WRN ||| c.BUS_ERR ||| c.ERR_PASSIVE ||| c.ARB_LOST) ≠ 0 →
      o.allocOk s.allocCnt = false →
      ∃ s', sunxi_can_interrupt_loop c o rxFuel (fuel + 1) n s =
          some (IrqRet.Handled, n + 1, s') ∧
        s'.writes = s.writes ∧ s'.stats = s.stats ∧
        s'.canState = s.canState ∧ s'.delivered = s.delivered) ∧
    (∀ s2, o.allocOk s2.allocCnt = false →
      sunxi_can_rx c o s2 = { s2 with allocCnt := s2.allocCnt + 1 }) := by
  constructor
  · intro hI hn hTb hRb herr hA
    have hA2 : o.allocOk (rdSt Reg.MSEL (rdSt Reg.STA (rdSt Reg.INT s))).allocCnt = false := hA
    simp only [sunxi_can_interrupt_loop]
    rw [if_pos (And.intro hI hn)]
    simp only [is_absent_false_all o hM, Bool.false_eq_true, if_false]
    rw [if_neg (not_ne_iff.mpr hTb), if_neg (not_ne_iff.mpr hRb)]
    simp only [drain_dispatch_done]
    rw [if_pos herr]
    simp only [sunxi_can_err_fst, hA2, Bool.false_eq_true, if_false]
    rw [sunxi_can_err_fail c o _ _ _ hA2]
    refine ⟨{ rdSt Reg.MSEL (rdSt Reg.STA (rdSt Reg.INT s)) with
        allocCnt := (rdSt Reg.MSEL (rdSt Reg.STA (rdSt Reg.INT s))).allocCnt + 1 },
      ?_, rfl, rfl, rfl, rfl⟩
    rw [if_pos (show n + 1 ≠ 0 from Nat.succ_ne_zero n)]
  · exact fun s2 h => sunxi_can_rx_fail c o s2 h

/-- C4 counterexample to the unamended claim: with the first
interrupt-source read reporting receive-pending plus data-overrun, the
first status read reporting receive-ready and the first (receive-frame)
allocation failing, the invocation does NOT skip its remaining interrupt
sources: after the failed receive allocation it still processes the
overrun source, counts it and delivers the diagnostic frame. -/
theorem C4_counterexample :
    oRxFailThenErr.allocOk 0 = false ∧
    (sunxi_can_interrupt exConsts oRxFailThenErr 2 initSt).map
        (fun t => (t.1, t.2.1, t.2.2.stats.rx_over_errors, t.2.2.delivered.length)) =
      some (IrqRet.Handled, 1, 1, 1) :=
  ⟨rfl, by decide⟩

/-- C4 witness: the amended theorem applied to the always-error-warning,
never-allocating oracle at the rest state. -/
theorem C4_alloc_failure_witness :
    (∀ k, oEWAllocFail.rd Reg.MSEL k &&& 0xFF ≠ 0xFF) ∧
    ((rdVal oEWAllocFail Reg.INT initSt % 256 ≠ 0 → 0 < SUNXI_CAN_MAX_IRQ →
      rdVal oEWAllocFail Reg.INT initSt % 256 &&& exConsts.TBUF_VLD = 0 →
      rdVal oEWAllocFail Reg.INT initSt % 256 &&& exConsts.RBUF_VLD = 0 →
      rdVal oEWAllocFail Reg.INT initSt % 256 &&&
        (exConsts.DATA_ORUNI ||| exConsts.ERR_WRN ||| exConsts.BUS_ERR |||
          exConsts.ERR_PASSIVE ||| exConsts.ARB_LOST) ≠ 0 →
      oEWAllocFail.allocOk initSt.allocCnt = false →
      ∃ s', sunxi_can_interrupt_loop exConsts oEWAllocFail 1 (0 + 1) 0 initSt =
          some (IrqRet.Handled, 0 + 1, s') ∧
        s'.writes = initSt.writes ∧ s'.stats = initSt.stats ∧
        s'.canState = initSt.canState ∧ s'.delivered = initSt.delivered) ∧
     (∀ s2, oEWAllocFail.allocOk s2.allocCnt = false →
      sunxi_can_rx exConsts oEWAllocFail s2 = { s2 with allocCnt := s2.allocCnt + 1 })) :=
  ⟨fun _ => by simp only [oEWAllocFail]; decide,
   C4_alloc_failure exConsts oEWAllocFail 1 0 0 initSt
     (fun _ => by simp only [oEWAllocFail]; decide)⟩
